import Mathlib

/-!
ComposeMediaPlayer, Windows MFPlay bridge (`mfplayertwo/native/library.cpp`)

A shallow embedding of the native control layer: the process-wide `g_state`
record, the file-scope thread variables, the MFPlay event callback, the worker
thread procedure and the exported command functions.

Conventions of the embedding.

* Pointers and handles are natural numbers, `0` being `nullptr`.
* `HRESULT` is a signed integer; `FAILED` and `SUCCEEDED` test the sign.
* Calls into MFPlay, the audio session API and the OS cannot be computed here:
  each function takes the answers of the calls it makes as extra arguments,
  and every call that is made is appended to the `calls` log of the machine.
* Every invocation of the registered listener `g_state.userCallback` is
  appended to the `notified` log of the machine. The listener is foreign code;
  it is taken not to call back into the library while it runs.
* The worker thread is followed through a control point (`WorkerPhase`):
  its start-up code, each dispatched engine event and its exit from the
  message loop are atomic steps interleaved with the calls of the exported
  functions. The join of `CleanupMediaPlayer` is the worker running from its
  control point to its return; a function that never returns has no result
  (`none`).
* The critical section `g_state.lock` makes each function body atomic with
  respect to the others; it has no further content in a sequential embedding.
-/

namespace MFPlayer

/-! ## Status codes (`library.h`) -/

/-- The Windows `HRESULT`: a signed status, negative on failure. -/
abbrev HRESULT := Int

/-- The `FAILED(hr)` test of the Windows SDK: the sign bit is set. -/
def FAILED (hr : HRESULT) : Bool := decide (hr < 0)

/-- The `SUCCEEDED(hr)` test of the Windows SDK: the sign bit is clear. -/
def SUCCEEDED (hr : HRESULT) : Bool := decide (0 ≤ hr)

def S_OK : HRESULT := 0

/-- `(HRESULT)0x80000001L`, read as a signed 32-bit value. -/
def MP_E_NOT_INITIALIZED : HRESULT := 0x80000001 - 2 ^ 32

/-- `(HRESULT)0x80000002L`, read as a signed 32-bit value. -/
def MP_E_ALREADY_INITIALIZED : HRESULT := 0x80000002 - 2 ^ 32

/-- `(HRESULT)0x80000003L`, read as a signed 32-bit value. -/
def MP_E_INVALID_PARAMETER : HRESULT := 0x80000003 - 2 ^ 32

/-- The `HRESULT_FROM_WIN32` conversion of the Windows SDK, applied to a
`DWORD` error code: codes that are not positive as a signed 32-bit value are
passed through, the others get the failure bit and `FACILITY_WIN32`. -/
def HRESULT_FROM_WIN32 (x : Nat) : HRESULT :=
  let w : Nat := x % 2 ^ 32
  if w = 0 then 0
  else if 2 ^ 31 ≤ w then Int.ofNat w - 2 ^ 32
  else Int.ofNat (w % 2 ^ 16 + 7 * 2 ^ 16 + 2 ^ 31) - 2 ^ 32

/-! ## Listener notifications (`library.h`) -/

/-- The `MP_EVENT_*` kinds passed to the listener. `library.h` defines the
first six as the integers 1 to 6; `MP_EVENT_PLAYBACK_ENDED` is used by
`library.cpp` and has no definition in the header, so the kinds are kept
symbolic and the numeric value of that one is a parameter of `code`. -/
inductive MP_EVENT where
  | MEDIAITEM_CREATED
  | MEDIAITEM_SET
  | PLAYBACK_STARTED
  | PLAYBACK_STOPPED
  | PLAYBACK_ERROR
  | PLAYBACK_PAUSED
  | PLAYBACK_ENDED
  deriving DecidableEq, Repr

/-- The integer handed to the listener for each kind. -/
def MP_EVENT.code (playbackEnded : Int) : MP_EVENT → Int
  | .MEDIAITEM_CREATED => 1
  | .MEDIAITEM_SET => 2
  | .PLAYBACK_STARTED => 3
  | .PLAYBACK_STOPPED => 4
  | .PLAYBACK_ERROR => 5
  | .PLAYBACK_PAUSED => 6
  | .PLAYBACK_ENDED => playbackEnded

/-- One invocation `listener(eventType, hr)` of the registered callback. -/
structure Notification where
  listener : Nat
  eventType : MP_EVENT
  hr : HRESULT
  deriving DecidableEq, Repr

/-! ## Engine events (`mfplay.h`) -/

/-- The `MFP_EVENT_TYPE` values the callback switches on; every other value
of the enumeration takes the `default` branch and is kept as `other`. -/
inductive MFP_EVENT_TYPE where
  | MEDIAITEM_CREATED
  | MEDIAITEM_SET
  | PLAY
  | PAUSE
  | STOP
  | POSITION_SET
  | ERROR
  | other (raw : Nat)
  deriving DecidableEq, Repr

/-- The fields of `MFP_EVENT_HEADER` (and of the item-created record built on
it) that the callback reads. -/
structure MFP_EVENT_HEADER where
  eEventType : MFP_EVENT_TYPE
  hrEvent : HRESULT
  pMediaItem : Nat
  deriving DecidableEq, Repr

/-- The answers of the engine to the calls the callback may make while it
handles one event: `pMediaItem->HasVideo`, `player->GetDuration` and
`player->GetPosition` (both in 100 ns units, signed 64-bit). -/
structure EventAnswers where
  hrHasVideo : HRESULT
  bHasVideo : Bool
  bIsSelected : Bool
  hrDuration : HRESULT
  duration : Int
  hrPosition : HRESULT
  position : Int
  deriving DecidableEq, Repr

/-! ## Single-precision levels -/

/-- An IEEE 754 binary32 value, by its three bit fields. -/
structure Float32 where
  sign : Bool
  exponent : Fin 256
  fraction : Fin 8388608
  deriving DecidableEq, Repr

namespace Float32

def isNaN (x : Float32) : Bool := decide (x.exponent.val = 255) && decide (x.fraction.val ≠ 0)

/-- The magnitude bits as a number, negated for negative values: for values
that are not NaN the numeric order is the order of these keys (the two
zeros share the key `0`). -/
def key (x : Float32) : Int :=
  let mag : Int := (x.exponent.val * 8388608 + x.fraction.val : Nat)
  if x.sign then -mag else mag

/-- The C comparison `x < y` on floats: false as soon as one side is NaN. -/
def lt (x y : Float32) : Bool := !x.isNaN && !y.isNaN && decide (x.key < y.key)

/-- The literal `0.0f`. -/
def zero : Float32 := ⟨false, 0, 0⟩

/-- The literal `1.0f`. -/
def one : Float32 := ⟨false, 127, 0⟩

/-- A quiet NaN (bit pattern `0x7FC00000`). -/
def qNaN : Float32 := ⟨false, 255, 4194304⟩

end Float32

/-! ## Calls made to the engine, the audio session API and the OS -/

inductive Call where
  | CreateMediaItemFromURL (player : Nat) (url : List Nat)
  | SetMediaItem (player item : Nat)
  | HasVideo (item : Nat)
  | Play (player : Nat)
  | Pause (player : Nat)
  | Stop (player : Nat)
  | UpdateVideo (player : Nat)
  | GetDuration (player : Nat)
  | GetPosition (player : Nat)
  | SetPosition (player : Nat) (position : Int)
  | Shutdown (player : Nat)
  | ReleasePlayer (player : Nat)
  | ReleaseCallback (callback : Nat)
  | CreateDeviceEnumerator
  | GetDefaultAudioEndpoint
  | ActivateSessionManager
  | GetAudioSessionControl
  | GetSimpleAudioVolume
  | SetMasterVolume (volume : Nat) (level : Float32)
  | GetMasterVolume (volume : Nat)
  | SetMute (volume : Nat) (mute : Bool)
  | GetMute (volume : Nat)
  | ReleaseAudioVolume (volume : Nat)
  | ReleaseAudioSession (session : Nat)
  | MFPCreateMediaPlayer (callback hwnd : Nat)
  | CreateThread
  | PostThreadQuit (threadId : Nat)
  | CloseHandle (handle : Nat)
  deriving DecidableEq, Repr

/-! ## The shared state -/

/-- The `PlayerState` record (the lock apart). -/
structure PlayerState where
  player : Nat
  userCallback : Nat
  hwnd : Nat
  hasVideo : Bool
  isInitialized : Bool
  isPlaying : Bool
  isLoading : Bool
  audioVolume : Nat
  audioSession : Nat
  deriving DecidableEq, Repr

/-- Where the worker thread stands: no thread was created (or it was joined),
created and not yet past its start-up code, blocked in its message loop, or
returned from `MediaThreadProc`. -/
inductive WorkerPhase where
  | absent
  | spawned
  | looping
  | returned
  deriving DecidableEq, Repr

/-- The globals of `library.cpp`, the control point of the worker thread, the
two logs, and `quitQueued`: whether the quit message posted by the running
`CleanupMediaPlayer` waits in the message queue of the worker thread. -/
structure Machine where
  g_state : PlayerState
  g_hThread : Nat
  g_dwThreadId : Nat
  g_bThreadActive : Bool
  g_hwndInit : Nat
  g_cbInit : Nat
  g_pCallback : Nat
  worker : WorkerPhase
  notified : List Notification
  calls : List Call
  quitQueued : Bool
  deriving DecidableEq, Repr

/-- The static initialiser of `g_state`: three null pointers and the flags
false, the members not listed being value-initialised. -/
def g_state_init : PlayerState :=
  { player := 0, userCallback := 0, hwnd := 0, hasVideo := false, isInitialized := false,
    isPlaying := false, isLoading := false, audioVolume := 0, audioSession := 0 }

/-- The state at process load. -/
def Machine.init : Machine :=
  { g_state := g_state_init, g_hThread := 0, g_dwThreadId := 0, g_bThreadActive := false,
    g_hwndInit := 0, g_cbInit := 0, g_pCallback := 0, worker := .absent,
    notified := [], calls := [], quitQueued := false }

/-- The statement `g_state.userCallback(eventType, hr)`. -/
def Machine.notify (m : Machine) (eventType : MP_EVENT) (hr : HRESULT) : Machine :=
  { m with notified := m.notified ++ [⟨m.g_state.userCallback, eventType, hr⟩] }

/-- A call into the engine, the audio API or the OS is recorded. -/
def Machine.call (m : Machine) (c : Call) : Machine :=
  { m with calls := m.calls ++ [c] }

/-! ## The event callback -/

/-- The method `MediaPlayerCallback::OnMediaPlayerEvent`. The result is
`none` where the source dereferences a null `g_state.player` (the
position-set branch has no null test). -/
def OnMediaPlayerEvent (m : Machine) (pEventHeader : Option MFP_EVENT_HEADER)
    (a : EventAnswers) : Option Machine :=
  match pEventHeader with
  | none => some m
  | some ev =>
    if m.g_state.userCallback = 0 then some m
    else if FAILED ev.hrEvent then
      let m := { m with g_state := { m.g_state with isPlaying := false, isLoading := false } }
      some (m.notify .PLAYBACK_ERROR ev.hrEvent)
    else
      match ev.eEventType with
      | .MEDIAITEM_CREATED =>
        let m :=
          if SUCCEEDED ev.hrEvent && decide (ev.pMediaItem ≠ 0) then
            let m := m.call (.HasVideo ev.pMediaItem)
            if SUCCEEDED a.hrHasVideo then
              let m := { m with g_state :=
                { m.g_state with hasVideo := a.bHasVideo && a.bIsSelected } }
              if m.g_state.player ≠ 0 then
                m.call (.SetMediaItem m.g_state.player ev.pMediaItem)
              else m
            else m
          else m
        some (m.notify .MEDIAITEM_CREATED ev.hrEvent)
      | .MEDIAITEM_SET =>
        let m := { m with g_state := { m.g_state with isLoading := false } }
        let m := m.notify .MEDIAITEM_SET ev.hrEvent
        if m.g_state.player ≠ 0 then
          let m := m.call (.Play m.g_state.player)
          some { m with g_state := { m.g_state with isPlaying := true } }
        else some m
      | .PLAY =>
        let m := { m with g_state := { m.g_state with isPlaying := true } }
        some (m.notify .PLAYBACK_STARTED ev.hrEvent)
      | .PAUSE =>
        let m := { m with g_state := { m.g_state with isPlaying := false } }
        some (m.notify .PLAYBACK_PAUSED ev.hrEvent)
      | .STOP =>
        let m := { m with g_state := { m.g_state with isPlaying := false } }
        some (m.notify .PLAYBACK_STOPPED ev.hrEvent)
      | .POSITION_SET =>
        if m.g_state.player = 0 then none
        else
          let m := m.call (.GetDuration m.g_state.player)
          if SUCCEEDED a.hrDuration then
            let m := m.call (.GetPosition m.g_state.player)
            if SUCCEEDED a.hrPosition then
              if a.position ≥ a.duration then
                let m := { m with g_state := { m.g_state with isPlaying := false } }
                some (m.notify .PLAYBACK_ENDED S_OK)
              else some m
            else some m
          else some m
      | .ERROR => some m
      | .other _ => some m

/-! ## The worker thread -/

/-- The answers met by the start-up code of `MediaThreadProc`: the status of
`CoInitializeEx` and of `MFStartup`, the pointer returned by the non-throwing
`new MediaPlayerCallback()`, and the status and object of
`MFPCreateMediaPlayer`. -/
structure StartAnswers where
  hrCoInitialize : HRESULT
  hrMFStartup : HRESULT
  pCallback : Nat
  hrCreate : HRESULT
  pPlayer : Nat
  deriving DecidableEq, Repr

/-- The COM rule for an object-creating call: a success status comes with a
non-null object. -/
def StartAnswers.wellFormed (a : StartAnswers) : Bool :=
  !SUCCEEDED a.hrCreate || decide (a.pPlayer ≠ 0)

/-- The procedure `MediaThreadProc` from its entry up to the first wait of the
message loop (or up to its early `return 1`). On failure
`MFPCreateMediaPlayer` leaves a null pointer in its out-parameter
`g_state.player`. -/
def MediaThreadProc_start (m : Machine) (a : StartAnswers) : Machine :=
  if FAILED a.hrCoInitialize then { m with worker := .returned }
  else if FAILED a.hrMFStartup then { m with worker := .returned }
  else
    let m := { m with g_pCallback := a.pCallback }
    if m.g_pCallback = 0 then { m with worker := .returned }
    else
      let m := m.call (.MFPCreateMediaPlayer m.g_pCallback m.g_hwndInit)
      if SUCCEEDED a.hrCreate then
        let m := { m with g_state := { m.g_state with player := a.pPlayer } }
        let m := { m with g_state := { m.g_state with
          userCallback := m.g_cbInit, hwnd := m.g_hwndInit, isInitialized := true } }
        { m with g_bThreadActive := true, worker := .looping }
      else
        let m := { m with g_state := { m.g_state with player := 0 } }
        { m with g_pCallback := 0, worker := .returned }

/-- How the message loop is left: a quit message was read (which clears
`g_bThreadActive`; the loop test finding the flag already cleared has the
same effect), or the wait failed (`break`, the flag is not touched). -/
inductive LoopExit where
  | quit
  | waitFailed
  deriving DecidableEq, Repr

/-- The tail of `MediaThreadProc` after the message loop: the engine is shut
down and released, then the callback object. -/
def MediaThreadProc_teardown (m : Machine) : Machine :=
  let m :=
    if m.g_state.player ≠ 0 then
      let m := (m.call (.Shutdown m.g_state.player)).call (.ReleasePlayer m.g_state.player)
      { m with g_state := { m.g_state with player := 0 } }
    else m
  let m :=
    if m.g_pCallback ≠ 0 then
      { m.call (.ReleaseCallback m.g_pCallback) with g_pCallback := 0 }
    else m
  { m with worker := .returned }

/-- The worker leaves its message loop and runs to its `return 0`. -/
def MediaThreadProc_leave (m : Machine) (why : LoopExit) : Machine :=
  match why with
  | .quit => MediaThreadProc_teardown { m with g_bThreadActive := false }
  | .waitFailed => MediaThreadProc_teardown m

/-- The engine events that the message loop dispatches one after the other,
each with the answers of the engine while it is handled. -/
def dispatchAll (m : Machine) : List (Option MFP_EVENT_HEADER × EventAnswers) → Option Machine
  | [] => some m
  | (ev, a) :: rest =>
    match OnMediaPlayerEvent m ev a with
    | none => none
    | some m1 => dispatchAll m1 rest

/-! ## The exported functions -/

/-- The answer of `CreateThread` (handle and thread id) and the value of
`GetLastError` after it. -/
structure ThreadAnswer where
  hThread : Nat
  threadId : Nat
  lastError : Nat
  deriving DecidableEq, Repr

/-- The function `InitializeMediaPlayer`. -/
def InitializeMediaPlayer (m : Machine) (hwnd callback : Nat) (t : ThreadAnswer) :
    HRESULT × Machine :=
  if m.g_state.isInitialized then (MP_E_ALREADY_INITIALIZED, m)
  else if hwnd = 0 || callback = 0 then (MP_E_INVALID_PARAMETER, m)
  else
    let m := { m with g_hwndInit := hwnd, g_cbInit := callback, g_bThreadActive := false }
    let m := m.call .CreateThread
    if t.hThread = 0 then
      (HRESULT_FROM_WIN32 t.lastError, { m with g_hThread := 0 })
    else
      (S_OK, { m with g_hThread := t.hThread, g_dwThreadId := t.threadId, worker := .spawned })

/-- The function `PlayFile`; `filePath` is `none` for a null pointer and
`hrCreate` is the status of `CreateMediaItemFromURL`. -/
def PlayFile (m : Machine) (filePath : Option (List Nat)) (hrCreate : HRESULT) :
    HRESULT × Machine :=
  if !m.g_state.isInitialized || m.g_state.player = 0 then (MP_E_NOT_INITIALIZED, m)
  else
    match filePath with
    | none => (MP_E_INVALID_PARAMETER, m)
    | some path =>
      let m := { m with g_state :=
        { m.g_state with hasVideo := false, isPlaying := false, isLoading := true } }
      let m := m.call (.CreateMediaItemFromURL m.g_state.player path)
      let m := if FAILED hrCreate then
          { m with g_state := { m.g_state with isLoading := false } }
        else m
      (hrCreate, m)

/-- The function `PlayURL`; `url` is `none` for a null pointer. -/
def PlayURL (m : Machine) (url : Option (List Nat)) (hrCreate : HRESULT) :
    HRESULT × Machine :=
  match url with
  | none => (MP_E_INVALID_PARAMETER, m)
  | some u =>
    if !m.g_state.isInitialized || m.g_state.player = 0 then (MP_E_NOT_INITIALIZED, m)
    else
      let m := { m with g_state :=
        { m.g_state with hasVideo := false, isPlaying := false, isLoading := true } }
      let m := m.call (.CreateMediaItemFromURL m.g_state.player u)
      let m := if FAILED hrCreate then
          { m with g_state := { m.g_state with isLoading := false } }
        else m
      (hrCreate, m)

/-- The function `PausePlayback`; `hr` is the status of `player->Pause()`. -/
def PausePlayback (m : Machine) (hr : HRESULT) : HRESULT × Machine :=
  if !m.g_state.isInitialized || m.g_state.player = 0 then (MP_E_NOT_INITIALIZED, m)
  else
    let m := m.call (.Pause m.g_state.player)
    let m := if SUCCEEDED hr then
        { m with g_state := { m.g_state with isPlaying := false } }
      else m
    (hr, m)

/-- The function `ResumePlayback`; `hr` is the status of `player->Play()`. -/
def ResumePlayback (m : Machine) (hr : HRESULT) : HRESULT × Machine :=
  if !m.g_state.isInitialized || m.g_state.player = 0 then (MP_E_NOT_INITIALIZED, m)
  else
    let m := m.call (.Play m.g_state.player)
    let m := if SUCCEEDED hr then
        { m with g_state := { m.g_state with isPlaying := true } }
      else m
    (hr, m)

/-- The function `StopPlayback`; `hr` is the status of `player->Stop()`. -/
def StopPlayback (m : Machine) (hr : HRESULT) : HRESULT × Machine :=
  if !m.g_state.isInitialized || m.g_state.player = 0 then (MP_E_NOT_INITIALIZED, m)
  else
    let m := m.call (.Stop m.g_state.player)
    let m := if SUCCEEDED hr then
        { m with g_state := { m.g_state with isPlaying := false } }
      else m
    (hr, m)

/-- The function `UpdateVideo`. -/
def UpdateVideo (m : Machine) : Machine :=
  if m.g_state.player ≠ 0 && m.g_state.hasVideo then m.call (.UpdateVideo m.g_state.player)
  else m

def IsInitialized (m : Machine) : Bool := m.g_state.isInitialized

def HasVideo (m : Machine) : Bool := m.g_state.hasVideo

def IsPlaying (m : Machine) : Bool := m.g_state.isPlaying

def IsLoading (m : Machine) : Bool := m.g_state.isLoading

/-- What the surroundings do while `CleanupMediaPlayer` waits for the worker
thread. `start` is consulted when the worker has not yet run its start-up
code; `events` are the engine events its loop still dispatches; `why` tells
whether a wait of the loop fails meanwhile (`waitFailed`) or none does
(`quit`: the loop can then be left only through a quit message or through
its test of `g_bThreadActive`). -/
structure JoinAnswers where
  start : StartAnswers
  events : List (Option MFP_EVENT_HEADER × EventAnswers)
  why : LoopExit
  deriving DecidableEq, Repr

/-- The worker, blocked in the wait of its message loop, runs on to its
return if it can. It dispatches the pending engine events; then, when a wait
fails, it breaks out of the loop; otherwise it leaves the loop when it reads
the quit message that waits in its queue, or when dispatched messages have
woken it and it finds `g_bThreadActive` cleared. In every other case it stays
in `MsgWaitForMultipleObjects` for ever and there is no result. -/
def loopToReturn (m : Machine) (j : JoinAnswers) : Option Machine :=
  match dispatchAll m j.events with
  | none => none
  | some m1 =>
    match j.why with
    | .waitFailed => some (MediaThreadProc_leave m1 .waitFailed)
    | .quit =>
      if m1.quitQueued then
        some (MediaThreadProc_leave { m1 with quitQueued := false } .quit)
      else if !m1.g_bThreadActive && !j.events.isEmpty then
        some (MediaThreadProc_leave m1 .quit)
      else none

/-- The worker thread runs from where it stands to its return: this is what
`WaitForSingleObject(g_hThread, INFINITE)` returns after. There is no result
when the worker never returns. -/
def runWorkerToReturn (m : Machine) (j : JoinAnswers) : Option Machine :=
  match m.worker with
  | .absent => some m
  | .returned => some m
  | .looping => loopToReturn m j
  | .spawned =>
    let m1 := MediaThreadProc_start m j.start
    if m1.worker = .looping then loopToReturn m1 j else some m1

/-- The last block of `CleanupMediaPlayer`: flags and handles are cleared and
the audio objects released. -/
def CleanupMediaPlayer_clear (m : Machine) : Machine :=
  let m := { m with g_state := { m.g_state with
    isInitialized := false, isPlaying := false, isLoading := false, hasVideo := false,
    userCallback := 0, hwnd := 0 } }
  let m : Machine :=
    if m.g_state.audioVolume ≠ 0 then
      { m.call (.ReleaseAudioVolume m.g_state.audioVolume) with
        g_state := { m.g_state with audioVolume := 0 } }
    else m
  if m.g_state.audioSession ≠ 0 then
    { m.call (.ReleaseAudioSession m.g_state.audioSession) with
      g_state := { m.g_state with audioSession := 0 } }
  else m

/-- The first block of `CleanupMediaPlayer`: the loop flag is cleared and a
quit message is posted to the worker thread when there is a thread id. The
message reaches the queue of a worker that is in its message loop; posted to
a thread that has not yet run it is lost (`PostThreadMessage` fails for a
thread without a message queue, and its result is not looked at). -/
def CleanupMediaPlayer_signal (m : Machine) : Machine :=
  let m := { m with g_bThreadActive := false }
  if m.g_dwThreadId ≠ 0 then
    { m.call (.PostThreadQuit m.g_dwThreadId) with quitQueued := decide (m.worker = .looping) }
  else { m with quitQueued := false }

/-- The second block of `CleanupMediaPlayer`: when there is a thread handle
the call waits for the worker to return and closes the handle; the thread id
is reset. There is no result when the worker never returns: the call stays in
`WaitForSingleObject`. -/
def CleanupMediaPlayer_join (m : Machine) (j : JoinAnswers) : Option Machine :=
  let joined : Option Machine :=
    if m.g_hThread ≠ 0 then
      (runWorkerToReturn m j).map (fun m1 =>
        { m1.call (.CloseHandle m1.g_hThread) with
          g_hThread := 0, worker := .absent, quitQueued := false })
    else some m
  joined.map (fun m2 => { m2 with g_dwThreadId := 0 })

/-- The function `CleanupMediaPlayer`. The result is `none` when the call
never returns because the worker it waits for never does, or when an event
dispatched by the worker during the join dereferences a null engine. -/
def CleanupMediaPlayer (m : Machine) (j : JoinAnswers) : Option Machine :=
  (CleanupMediaPlayer_join (CleanupMediaPlayer_signal m) j).map CleanupMediaPlayer_clear

/-! ## Audio control -/

/-- The answers of the audio session API to the device chain resolved by
`InitializeAudioControl`. -/
structure AudioAnswers where
  hrEnumerator : HRESULT
  hrEndpoint : HRESULT
  hrActivate : HRESULT
  hrSession : HRESULT
  pSession : Nat
  hrVolume : HRESULT
  pVolume : Nat
  deriving DecidableEq, Repr

/-- The function `InitializeAudioControl`. A failed call leaves a null pointer
in its out-parameter. -/
def InitializeAudioControl (m : Machine) (a : AudioAnswers) : HRESULT × Machine :=
  if !m.g_state.isInitialized || m.g_state.player = 0 then (MP_E_NOT_INITIALIZED, m)
  else if m.g_state.audioVolume ≠ 0 then (S_OK, m)
  else
    let m := m.call .CreateDeviceEnumerator
    if FAILED a.hrEnumerator then (a.hrEnumerator, m)
    else
      let m := m.call .GetDefaultAudioEndpoint
      if FAILED a.hrEndpoint then (a.hrEndpoint, m)
      else
        let m := m.call .ActivateSessionManager
        if FAILED a.hrActivate then (a.hrActivate, m)
        else
          let m := m.call .GetAudioSessionControl
          let m := { m with g_state := { m.g_state with
            audioSession := if SUCCEEDED a.hrSession then a.pSession else 0 } }
          if FAILED a.hrSession then (a.hrSession, m)
          else
            let m := m.call .GetSimpleAudioVolume
            let m := { m with g_state := { m.g_state with
              audioVolume := if SUCCEEDED a.hrVolume then a.pVolume else 0 } }
            (a.hrVolume, m)

/-- The function `SetVolume`; `hrSet` is the status of `SetMasterVolume`. -/
def SetVolume (m : Machine) (level : Float32) (a : AudioAnswers) (hrSet : HRESULT) :
    HRESULT × Machine :=
  if Float32.lt level Float32.zero || Float32.lt Float32.one level then
    (MP_E_INVALID_PARAMETER, m)
  else
    let (hr, m) := InitializeAudioControl m a
    if FAILED hr then (hr, m)
    else if m.g_state.audioVolume ≠ 0 then
      (hrSet, m.call (.SetMasterVolume m.g_state.audioVolume level))
    else (hr, m)

/-- The function `GetVolume`; `pLevel` is the output pointer and `hrGet` the
status of `GetMasterVolume`. -/
def GetVolume (m : Machine) (pLevel : Nat) (a : AudioAnswers) (hrGet : HRESULT) :
    HRESULT × Machine :=
  if pLevel = 0 then (MP_E_INVALID_PARAMETER, m)
  else
    let (hr, m) := InitializeAudioControl m a
    if FAILED hr then (hr, m)
    else if m.g_state.audioVolume ≠ 0 then
      (hrGet, m.call (.GetMasterVolume m.g_state.audioVolume))
    else (hr, m)

/-- The function `SetMute`. -/
def SetMute (m : Machine) (bMute : Bool) (a : AudioAnswers) (hrSet : HRESULT) :
    HRESULT × Machine :=
  let (hr, m) := InitializeAudioControl m a
  if FAILED hr then (hr, m)
  else if m.g_state.audioVolume ≠ 0 then
    (hrSet, m.call (.SetMute m.g_state.audioVolume bMute))
  else (hr, m)

/-- The function `GetMute`; `pbMute` is the output pointer. -/
def GetMute (m : Machine) (pbMute : Nat) (a : AudioAnswers) (hrGet : HRESULT) :
    HRESULT × Machine :=
  if pbMute = 0 then (MP_E_INVALID_PARAMETER, m)
  else
    let (hr, m) := InitializeAudioControl m a
    if FAILED hr then (hr, m)
    else if m.g_state.audioVolume ≠ 0 then
      (hrGet, m.call (.GetMute m.g_state.audioVolume))
    else (hr, m)

/-! ## Position and duration -/

/-- The function `GetDuration`; `pDuration` is the output pointer. -/
def GetDuration (m : Machine) (pDuration : Nat) (hr : HRESULT) : HRESULT × Machine :=
  if pDuration = 0 then (MP_E_INVALID_PARAMETER, m)
  else if !m.g_state.isInitialized || m.g_state.player = 0 then (MP_E_NOT_INITIALIZED, m)
  else (hr, m.call (.GetDuration m.g_state.player))

/-- The function `GetCurrentPosition`; `pPosition` is the output pointer. -/
def GetCurrentPosition (m : Machine) (pPosition : Nat) (hr : HRESULT) : HRESULT × Machine :=
  if pPosition = 0 then (MP_E_INVALID_PARAMETER, m)
  else if !m.g_state.isInitialized || m.g_state.player = 0 then (MP_E_NOT_INITIALIZED, m)
  else (hr, m.call (.GetPosition m.g_state.player))

/-- The function `SetPosition`. -/
def SetPosition (m : Machine) (position : Int) (hr : HRESULT) : HRESULT × Machine :=
  if !m.g_state.isInitialized || m.g_state.player = 0 then (MP_E_NOT_INITIALIZED, m)
  else (hr, m.call (.SetPosition m.g_state.player position))

/-! ## Runs of the whole machine -/

/-- One atomic step of the system: a call of an exported function with the
answers it meets, or a step of the worker thread. -/
inductive Op where
  | init (hwnd callback : Nat) (t : ThreadAnswer)
  | workerStart (a : StartAnswers)
  | engineEvent (ev : Option MFP_EVENT_HEADER) (a : EventAnswers)
  | workerLeave (why : LoopExit)
  | playFile (filePath : Option (List Nat)) (hr : HRESULT)
  | playURL (url : Option (List Nat)) (hr : HRESULT)
  | pause (hr : HRESULT)
  | resume (hr : HRESULT)
  | stop (hr : HRESULT)
  | updateVideo
  | cleanup (j : JoinAnswers)
  | setVolume (level : Float32) (a : AudioAnswers) (hr : HRESULT)
  | getVolume (pLevel : Nat) (a : AudioAnswers) (hr : HRESULT)
  | setMute (bMute : Bool) (a : AudioAnswers) (hr : HRESULT)
  | getMute (pbMute : Nat) (a : AudioAnswers) (hr : HRESULT)
  | getDuration (pDuration : Nat) (hr : HRESULT)
  | getCurrentPosition (pPosition : Nat) (hr : HRESULT)
  | setPosition (position : Int) (hr : HRESULT)
  deriving DecidableEq, Repr

/-- The effect of one step, `none` when the step cannot happen in the state.
The worker runs its start-up code once after it was created, with answers
that respect the COM rule; it receives engine events and leaves its loop
only while it is in the loop. `InitializeMediaPlayer` is not called while a
worker created by an earlier call has not yet run its start-up code: callers
serialise their initialize calls, the machine has one worker. -/
def step (m : Machine) : Op → Option Machine
  | .init hwnd callback t =>
    if m.worker = .spawned then none else some (InitializeMediaPlayer m hwnd callback t).2
  | .workerStart a =>
    if m.worker = .spawned && a.wellFormed then some (MediaThreadProc_start m a) else none
  | .engineEvent ev a =>
    if m.worker = .looping then OnMediaPlayerEvent m ev a else none
  | .workerLeave why =>
    if m.worker = .looping then some (MediaThreadProc_leave m why) else none
  | .playFile filePath hr => some (PlayFile m filePath hr).2
  | .playURL url hr => some (PlayURL m url hr).2
  | .pause hr => some (PausePlayback m hr).2
  | .resume hr => some (ResumePlayback m hr).2
  | .stop hr => some (StopPlayback m hr).2
  | .updateVideo => some (UpdateVideo m)
  | .cleanup j => CleanupMediaPlayer m j
  | .setVolume level a hr => some (SetVolume m level a hr).2
  | .getVolume pLevel a hr => some (GetVolume m pLevel a hr).2
  | .setMute bMute a hr => some (SetMute m bMute a hr).2
  | .getMute pbMute a hr => some (GetMute m pbMute a hr).2
  | .getDuration pDuration hr => some (GetDuration m pDuration hr).2
  | .getCurrentPosition pPosition hr => some (GetCurrentPosition m pPosition hr).2
  | .setPosition position hr => some (SetPosition m position hr).2

/-- A sequence of steps from a state. -/
def run (m : Machine) : List Op → Option Machine
  | [] => some m
  | op :: ops =>
    match step m op with
    | none => none
    | some m1 => run m1 ops

/-- The states the system can be in: those a sequence of steps leads to from
the state at process load. -/
def Reachable (m : Machine) : Prop := ∃ ops, run Machine.init ops = some m

/-- The relation between the worker thread and the engine handle that every
step keeps: a worker in its loop was created with a handle and holds a live
engine in an initialised state; a worker that has not started has a handle
and has published nothing; without a running worker there is no engine. -/
def Inv (m : Machine) : Prop :=
  (m.worker = .looping →
    m.g_hThread ≠ 0 ∧ m.g_state.isInitialized = true ∧ m.g_state.player ≠ 0) ∧
  (m.worker = .spawned →
    m.g_hThread ≠ 0 ∧ m.g_state.isInitialized = false ∧ m.g_state.player = 0) ∧
  (m.worker = .absent ∨ m.worker = .returned → m.g_state.player = 0)

/-- The uninitialised state of the player record. -/
def Uninitialised (s : PlayerState) : Prop :=
  s.isInitialized = false ∧ s.isPlaying = false ∧ s.isLoading = false ∧ s.hasVideo = false ∧
  s.player = 0 ∧ s.userCallback = 0 ∧ s.hwnd = 0 ∧ s.audioSession = 0 ∧ s.audioVolume = 0

/-! ## Sample inputs -/

/-- A player record in the ready state: engine 11, listener 22, window 33. -/
def sampleState : PlayerState :=
  { player := 11, userCallback := 22, hwnd := 33, hasVideo := true, isInitialized := true,
    isPlaying := true, isLoading := false, audioVolume := 0, audioSession := 0 }

/-- The machine after the run `sampleRun`: the worker is in its loop with
`sampleState` and the player is playing a file with video. -/
def sampleMachine : Machine :=
  { g_state := sampleState, g_hThread := 44, g_dwThreadId := 55, g_bThreadActive := true,
    g_hwndInit := 33, g_cbInit := 22, g_pCallback := 66, worker := .looping,
    notified := [⟨22, .MEDIAITEM_CREATED, 0⟩, ⟨22, .MEDIAITEM_SET, 0⟩],
    calls := [.CreateThread, .MFPCreateMediaPlayer 66 33, .CreateMediaItemFromURL 11 [97],
      .HasVideo 77, .SetMediaItem 11 77, .Play 11],
    quitQueued := false }

/-- Engine answers: the item has a selected video stream, duration 1000 and
position 1000, every call succeeding. -/
def sampleAnswers : EventAnswers :=
  { hrHasVideo := 0, bHasVideo := true, bIsSelected := true,
    hrDuration := 0, duration := 1000, hrPosition := 0, position := 1000 }

/-- A run from process load: initialise, construct the engine, ask for a
file, item created with video, item set. -/
def sampleRun : List Op :=
  [.init 33 22 ⟨44, 55, 0⟩, .workerStart ⟨0, 0, 66, 0, 11⟩, .playFile (some [97]) 0,
    .engineEvent (some ⟨.MEDIAITEM_CREATED, 0, 77⟩) sampleAnswers,
    .engineEvent (some ⟨.MEDIAITEM_SET, 0, 0⟩) sampleAnswers]

/-- The status `E_FAIL`, `0x80004005` as a signed 32-bit value. -/
def E_FAIL : HRESULT := 0x80004005 - 2 ^ 32

/-! ## Further definitions used by the theorems -/

/-- A join in which the worker still dispatches a played event before it
leaves its loop on the quit message. -/
def sampleJoin : JoinAnswers :=
  { start := ⟨0, 0, 66, 0, 11⟩, events := [(some ⟨.PLAY, 0, 0⟩, sampleAnswers)], why := .quit }

/-- The state in which `CleanupMediaPlayer` leaves `sampleMachine`. -/
def sampleCleaned : Machine :=
  { g_state := g_state_init, g_hThread := 0, g_dwThreadId := 0, g_bThreadActive := false,
    g_hwndInit := 33, g_cbInit := 22, g_pCallback := 0, worker := .absent,
    notified := sampleMachine.notified ++ [⟨22, .PLAYBACK_STARTED, 0⟩],
    calls := sampleMachine.calls ++ [.PostThreadQuit 55, .Shutdown 11, .ReleasePlayer 11,
      .ReleaseCallback 66, .CloseHandle 44],
    quitQueued := false }

/-- The guard shared by the exported functions: the player counts as
initialised, with its engine present, when `isInitialized` is set and
`player` is not null. -/
def Ready (m : Machine) : Prop := m.g_state.isInitialized = true ∧ m.g_state.player ≠ 0

instance (m : Machine) : Decidable (Ready m) := by
  unfold Ready
  exact inferInstance

/-- The status `E_INVALIDARG`, `0x80070057` as a signed 32-bit value. -/
def E_INVALIDARG : HRESULT := 0x80070057 - 2 ^ 32

/-- Audio answers in which the whole device chain resolves: session 77 and
volume control 88. -/
def sampleAudio : AudioAnswers :=
  { hrEnumerator := 0, hrEndpoint := 0, hrActivate := 0, hrSession := 0, pSession := 77,
    hrVolume := 0, pVolume := 88 }

/-- The literal `2.0f`. -/
def Float32.two : Float32 := ⟨false, 128, 0⟩

/-- The literal `-1.0f`. -/
def Float32.minusOne : Float32 := ⟨true, 127, 0⟩

/-- A machine like `sampleMachine` whose audio session is already resolved. -/
def sampleWithAudio : Machine :=
  { sampleMachine with g_state := { sampleState with audioVolume := 88, audioSession := 77 } }

/-- The fields that only the thread functions write. -/
def SameFrame (m m1 : Machine) : Prop :=
  m1.worker = m.worker ∧ m1.g_hThread = m.g_hThread ∧ m1.g_dwThreadId = m.g_dwThreadId ∧
  m1.g_pCallback = m.g_pCallback ∧ m1.g_state.player = m.g_state.player ∧
  m1.g_state.isInitialized = m.g_state.isInitialized

/-- A state reached by initialising, constructing the engine and asking for a
file: the worker is in its loop and the player is loading. -/
def sampleLoading : Machine :=
  { g_state := { sampleState with hasVideo := false, isPlaying := false, isLoading := true },
    g_hThread := 44, g_dwThreadId := 55, g_bThreadActive := true, g_hwndInit := 33,
    g_cbInit := 22, g_pCallback := 66, worker := .looping, notified := [],
    calls := [.CreateThread, .MFPCreateMediaPlayer 66 33, .CreateMediaItemFromURL 11 [97]],
    quitQueued := false }

/-- The steps that write the thread variables, the engine handle or
`isInitialized`: `InitializeMediaPlayer`, the start-up code of the worker,
its exit from the message loop, and `CleanupMediaPlayer`. -/
def Op.isLifecycle : Op → Bool
  | .init _ _ _ => true
  | .workerStart _ => true
  | .workerLeave _ => true
  | .cleanup _ => true
  | _ => false

/-- A run in which the wait of the message loop fails after the engine was
constructed. -/
def sampleWaitFailedRun : List Op :=
  [.init 33 22 ⟨44, 55, 0⟩, .workerStart ⟨0, 0, 66, 0, 11⟩, .workerLeave .waitFailed]

/-- The machine after `sampleWaitFailedRun`: the worker has torn the engine
down and returned, `CleanupMediaPlayer` has not been called. -/
def sampleTornDown : Machine :=
  { g_state := { g_state_init with userCallback := 22, hwnd := 33, isInitialized := true },
    g_hThread := 44, g_dwThreadId := 55, g_bThreadActive := true, g_hwndInit := 33,
    g_cbInit := 22, g_pCallback := 0, worker := .returned, notified := [],
    calls := [.CreateThread, .MFPCreateMediaPlayer 66 33, .Shutdown 11, .ReleasePlayer 11,
      .ReleaseCallback 66],
    quitQueued := false }

/-- The number of device-chain resolutions in a call log: each resolution
starts by creating the device enumerator. -/
def resolutions (cs : List Call) : Nat := cs.count .CreateDeviceEnumerator

/-- The five calls of one resolution of the device chain. -/
def deviceChain : List Call :=
  [.CreateDeviceEnumerator, .GetDefaultAudioEndpoint, .ActivateSessionManager,
    .GetAudioSessionControl, .GetSimpleAudioVolume]

/-- Two `SetVolume` calls in a row, each with its own answers. -/
def SetVolume_twice (m : Machine) (l1 l2 : Float32) (a1 a2 : AudioAnswers)
    (hr1 hr2 : HRESULT) : HRESULT × Machine :=
  SetVolume (SetVolume m l1 a1 hr1).2 l2 a2 hr2

/-- Audio answers in which the device chain cannot be resolved any more: the
device enumerator cannot be created. -/
def sampleUnplugged : AudioAnswers :=
  { hrEnumerator := E_FAIL, hrEndpoint := E_FAIL, hrActivate := E_FAIL, hrSession := E_FAIL,
    pSession := 0, hrVolume := E_FAIL, pVolume := 0 }

/-- The level `0.5f`. -/
def Float32.half : Float32 := ⟨false, 126, 0⟩

/-- The two flags are not both set. -/
def Exclusive (m : Machine) : Prop :=
  ¬ (m.g_state.isPlaying = true ∧ m.g_state.isLoading = true)

/-- A load is pending: `isLoading` is set and `isPlaying` is clear. -/
def LoadPending (m : Machine) : Prop :=
  m.g_state.isLoading = true ∧ m.g_state.isPlaying = false

/-- The steps that set `isPlaying` without looking at `isLoading`: a
`ResumePlayback` whose transport command succeeds, and a successful play event
of the engine. -/
def Op.raisesPlaying : Op → Bool
  | .resume hr => SUCCEEDED hr
  | .engineEvent (some ev) _ => SUCCEEDED ev.hrEvent && decide (ev.eEventType = .PLAY)
  | _ => false

/-- The steps that cannot end a pending load: every step except a
`ResumePlayback` that succeeds, an engine event that failed or is a play or an
item-set event, a play request that fails synchronously, and
`CleanupMediaPlayer`. -/
def Op.keepsLoad : Op → Bool
  | .resume hr => !SUCCEEDED hr
  | .engineEvent (some ev) _ =>
    SUCCEEDED ev.hrEvent && decide (ev.eEventType ≠ .PLAY) &&
      decide (ev.eEventType ≠ .MEDIAITEM_SET)
  | .playFile arg hr => arg.isNone || SUCCEEDED hr
  | .playURL arg hr => arg.isNone || SUCCEEDED hr
  | .cleanup _ => false
  | _ => true

/-- The steps that may write `isPlaying` or `isLoading`. -/
def Op.touchesFlags : Op → Bool
  | .engineEvent _ _ => true
  | .playFile _ _ => true
  | .playURL _ _ => true
  | .pause _ => true
  | .resume _ => true
  | .stop _ => true
  | .cleanup _ => true
  | _ => false

/-- A run in which playback is resumed while the requested file is still
loading. -/
def sampleResumeRun : List Op :=
  [.init 33 22 ⟨44, 55, 0⟩, .workerStart ⟨0, 0, 66, 0, 11⟩, .playFile (some [97]) 0, .resume 0]

/-- The machine after `sampleResumeRun`. -/
def sampleResumed : Machine :=
  { sampleLoading with
    g_state := { sampleLoading.g_state with isPlaying := true },
    calls := sampleLoading.calls ++ [.Play 11] }

/-- The start-up code of the worker reaches the message loop: COM and Media
Foundation start, the callback object is allocated and the engine is
created. -/
def StartAnswers.reachesLoop (a : StartAnswers) : Bool :=
  !FAILED a.hrCoInitialize && !FAILED a.hrMFStartup && decide (a.pCallback ≠ 0) &&
    SUCCEEDED a.hrCreate

/-- Conditions under which the worker that `CleanupMediaPlayer` waits for
returns. A worker in its loop is reached by the quit message when the thread
id is not zero; failing that, a wait of its loop fails, or engine events wake
it and it finds the cleared flag. A worker that has not started misses the
quit message: it returns when its start-up code fails or a wait of its loop
fails (with engine answers that respect the COM rule). -/
def JoinReturns (m : Machine) (j : JoinAnswers) : Prop :=
  (m.worker = .looping → m.g_dwThreadId ≠ 0 ∨ j.why = .waitFailed ∨ j.events ≠ []) ∧
  (m.worker = .spawned →
    j.start.wellFormed = true ∧ (j.start.reachesLoop = false ∨ j.why = .waitFailed))

/-- The machine right after a successful `InitializeMediaPlayer`: the worker
thread is created and has not yet run. -/
def sampleSpawned : Machine :=
  { Machine.init with
    g_hThread := 44, g_dwThreadId := 55, g_hwndInit := 33, g_cbInit := 22,
    worker := .spawned, calls := [.CreateThread] }

/-- The C comparison `x <= y` on floats: false as soon as one side is NaN. -/
def Float32.le (x y : Float32) : Bool := !x.isNaN && !y.isNaN && decide (x.key ≤ y.key)

/-- The level lies in the closed interval from `0.0f` to `1.0f`. -/
def Float32.inUnitInterval (x : Float32) : Bool :=
  Float32.le Float32.zero x && Float32.le x Float32.one

/-! ## Status tests -/

theorem FAILED_of_SUCCEEDED {x : HRESULT} (h : SUCCEEDED x = true) : FAILED x = false := by
  simp only [SUCCEEDED, decide_eq_true_eq] at h
  simp only [FAILED, decide_eq_false_iff_not]
  exact Int.not_lt.mpr h

theorem SUCCEEDED_of_FAILED {x : HRESULT} (h : FAILED x = true) : SUCCEEDED x = false := by
  simp only [FAILED, decide_eq_true_eq] at h
  simp only [SUCCEEDED, decide_eq_false_iff_not]
  exact Int.not_le.mpr h

theorem SUCCEEDED_or_FAILED (x : HRESULT) :
    (SUCCEEDED x = true ∧ FAILED x = false) ∨ (SUCCEEDED x = false ∧ FAILED x = true) := by
  by_cases h : FAILED x = true
  · exact Or.inr ⟨SUCCEEDED_of_FAILED h, h⟩
  · left
    simp only [FAILED, decide_eq_true_eq, Int.not_lt] at h
    refine ⟨by simpa [SUCCEEDED] using h, ?_⟩
    simp only [FAILED, decide_eq_false_iff_not]
    exact Int.not_lt.mpr h

theorem PlayFile_accepted {m : Machine} {path : List Nat} {hr : HRESULT}
    (h : SUCCEEDED (PlayFile m (some path) hr).1 = true) :
    m.g_state.isInitialized = true ∧ m.g_state.player ≠ 0 ∧ SUCCEEDED hr = true := by
  unfold PlayFile at h
  split at h
  · have h2 : SUCCEEDED MP_E_NOT_INITIALIZED = true := h
    exact absurd h2 (by decide)
  · rename_i hc
    simp only [Bool.or_eq_true, Bool.not_eq_true', decide_eq_true_eq, not_or,
      Bool.not_eq_false] at hc
    exact ⟨hc.1, hc.2, h⟩

/-! ## The event callback: theorems -/

/-- C1. With a listener registered, an engine event of any kind whose status
is a failure makes `OnMediaPlayerEvent` return after exactly one
notification, of kind `PLAYBACK_ERROR` with the status of the event, to the
registered listener; `isPlaying` and `isLoading` are false afterwards, no call
is made to the engine, and `hasVideo` and all the other fields are as
before. -/
theorem failed_event_yields_one_error (m : Machine) (ev : MFP_EVENT_HEADER) (a : EventAnswers)
    (hcb : m.g_state.userCallback ≠ 0) (hfail : FAILED ev.hrEvent = true) :
    ∃ m1, OnMediaPlayerEvent m (some ev) a = some m1 ∧
      m1.notified = m.notified ++ [⟨m.g_state.userCallback, .PLAYBACK_ERROR, ev.hrEvent⟩] ∧
      m1.g_state.isPlaying = false ∧ m1.g_state.isLoading = false ∧
      m1.g_state.hasVideo = m.g_state.hasVideo ∧ m1.calls = m.calls ∧
      m1 = { m with
        g_state := { m.g_state with isPlaying := false, isLoading := false },
        notified := m1.notified } := by
  simp [OnMediaPlayerEvent, hcb, hfail, Machine.notify]

theorem failed_event_yields_one_error_witness :
    ∃ m1, OnMediaPlayerEvent sampleMachine (some ⟨.MEDIAITEM_SET, E_FAIL, 0⟩) sampleAnswers
        = some m1 ∧
      m1.notified = sampleMachine.notified ++
        [⟨sampleMachine.g_state.userCallback, .PLAYBACK_ERROR, E_FAIL⟩] ∧
      m1.g_state.isPlaying = false ∧ m1.g_state.isLoading = false ∧
      m1.g_state.hasVideo = sampleMachine.g_state.hasVideo ∧ m1.calls = sampleMachine.calls ∧
      m1 = { sampleMachine with
        g_state := { sampleMachine.g_state with isPlaying := false, isLoading := false },
        notified := m1.notified } :=
  failed_event_yields_one_error sampleMachine ⟨.MEDIAITEM_SET, E_FAIL, 0⟩ sampleAnswers
    (by decide) (by decide)

/-- C2. From the state at process load: `InitializeMediaPlayer` returns
`S_OK` and the worker thread is created, its start-up code constructs the
engine, `PlayFile` of a present path is accepted, the engine reports a created
item with a selected video stream and then the item set. This run exists; at
its end `hasVideo` and `isPlaying` are true, `isLoading` is false, and the
listener given to `InitializeMediaPlayer` has received `MEDIAITEM_CREATED`
then `MEDIAITEM_SET` and nothing else. -/
theorem play_file_scenario (hwnd callback : Nat) (t : ThreadAnswer) (s : StartAnswers)
    (path : List Nat) (hrCreate : HRESULT) (created itemSet : MFP_EVENT_HEADER)
    (a1 a2 : EventAnswers)
    (hInit : (InitializeMediaPlayer Machine.init hwnd callback t).1 = S_OK)
    (hThread : t.hThread ≠ 0)
    (hCo : SUCCEEDED s.hrCoInitialize = true) (hMF : SUCCEEDED s.hrMFStartup = true)
    (hNew : s.pCallback ≠ 0) (hEngine : SUCCEEDED s.hrCreate = true)
    (hAccepted : SUCCEEDED (PlayFile
      (MediaThreadProc_start (InitializeMediaPlayer Machine.init hwnd callback t).2 s)
      (some path) hrCreate).1 = true)
    (hCreated : created.eEventType = .MEDIAITEM_CREATED)
    (hCreatedOk : SUCCEEDED created.hrEvent = true) (hItem : created.pMediaItem ≠ 0)
    (hProbe : SUCCEEDED a1.hrHasVideo = true) (hVideo : a1.bHasVideo = true)
    (hSelected : a1.bIsSelected = true)
    (hSet : itemSet.eEventType = .MEDIAITEM_SET) (hSetOk : SUCCEEDED itemSet.hrEvent = true) :
    ∃ m5, run Machine.init [.init hwnd callback t, .workerStart s,
        .playFile (some path) hrCreate, .engineEvent (some created) a1,
        .engineEvent (some itemSet) a2] = some m5 ∧
      m5.g_state.hasVideo = true ∧ m5.g_state.isPlaying = true ∧
      m5.g_state.isLoading = false ∧
      m5.notified = [⟨callback, .MEDIAITEM_CREATED, created.hrEvent⟩,
        ⟨callback, .MEDIAITEM_SET, itemSet.hrEvent⟩] := by
  have hargs : hwnd ≠ 0 ∧ callback ≠ 0 := by
    by_contra hc
    have h0 : (hwnd = 0 || callback = 0) = true := by
      simp only [Bool.or_eq_true, decide_eq_true_eq]
      by_cases h : hwnd = 0
      · exact Or.inl h
      · exact Or.inr (by_contra fun h2 => hc ⟨h, h2⟩)
    simp [InitializeMediaPlayer, Machine.init, g_state_init, h0] at hInit
    revert hInit
    decide
  obtain ⟨hw, hcb⟩ := hargs
  have hfail : ∀ x : HRESULT, SUCCEEDED x = true → FAILED x = false :=
    fun x hx => FAILED_of_SUCCEEDED hx
  have hCo2 := hfail _ hCo
  have hMF2 := hfail _ hMF
  have hCr2 := hfail _ hCreatedOk
  have hSet2 := hfail _ hSetOk
  obtain ⟨-, hpl, hacc⟩ := PlayFile_accepted hAccepted
  have hacc2 := hfail _ hacc
  have hp : s.pPlayer ≠ 0 := by
    simpa [InitializeMediaPlayer, Machine.init, g_state_init, hw, hcb, hThread,
      MediaThreadProc_start, hCo2, hMF2, hNew, hEngine, Machine.call] using hpl
  simp [run, step, InitializeMediaPlayer, Machine.init, g_state_init, hw, hcb, hThread,
    MediaThreadProc_start, hCo2, hMF2, hNew, hEngine, Machine.call, PlayFile,
    StartAnswers.wellFormed, hp, OnMediaPlayerEvent, hCreated, hCreatedOk, hCr2, hItem,
    hProbe, hVideo, hSelected, hSet, hSet2, Machine.notify, hacc2]

theorem play_file_scenario_witness :
    ∃ m5, run Machine.init [.init 33 22 ⟨44, 55, 0⟩, .workerStart ⟨0, 0, 66, 0, 11⟩,
        .playFile (some [97]) 0, .engineEvent (some ⟨.MEDIAITEM_CREATED, 0, 77⟩) sampleAnswers,
        .engineEvent (some ⟨.MEDIAITEM_SET, 0, 0⟩) sampleAnswers] = some m5 ∧
      m5.g_state.hasVideo = true ∧ m5.g_state.isPlaying = true ∧
      m5.g_state.isLoading = false ∧
      m5.notified = [⟨22, .MEDIAITEM_CREATED, 0⟩, ⟨22, .MEDIAITEM_SET, 0⟩] :=
  play_file_scenario 33 22 ⟨44, 55, 0⟩ ⟨0, 0, 66, 0, 11⟩ [97] 0
    ⟨.MEDIAITEM_CREATED, 0, 77⟩ ⟨.MEDIAITEM_SET, 0, 0⟩ sampleAnswers sampleAnswers
    (by decide) (by decide) (by decide) (by decide) (by decide) (by decide) (by decide)
    rfl (by decide) (by decide) (by decide) rfl rfl rfl (by decide)

/-- C3. With a listener registered and the engine present, a successful
position-set event whose duration and position reads both succeed is handled
as follows: when the position is at or past the duration, `isPlaying` becomes
false and the listener receives exactly one `PLAYBACK_ENDED`; when the
position is before the duration, nothing is notified and the player record is
as before. In both cases `isLoading`, `hasVideo` and every field other than
`isPlaying` are unchanged. -/
theorem position_set_event (m : Machine) (ev : MFP_EVENT_HEADER) (a : EventAnswers)
    (hcb : m.g_state.userCallback ≠ 0) (hplayer : m.g_state.player ≠ 0)
    (hkind : ev.eEventType = .POSITION_SET) (hok : SUCCEEDED ev.hrEvent = true)
    (hd : SUCCEEDED a.hrDuration = true) (hp : SUCCEEDED a.hrPosition = true) :
    ∃ m1, OnMediaPlayerEvent m (some ev) a = some m1 ∧
      (a.position ≥ a.duration →
        m1.g_state.isPlaying = false ∧
        m1.notified = m.notified ++ [⟨m.g_state.userCallback, .PLAYBACK_ENDED, S_OK⟩]) ∧
      (a.position < a.duration → m1.notified = m.notified ∧ m1.g_state = m.g_state) ∧
      m1.g_state.isLoading = m.g_state.isLoading ∧
      m1.g_state.hasVideo = m.g_state.hasVideo ∧
      m1.g_state = { m.g_state with isPlaying := m1.g_state.isPlaying } := by
  have hok2 := FAILED_of_SUCCEEDED hok
  by_cases hge : a.position ≥ a.duration
  · have hlt : ¬ a.position < a.duration := Int.not_lt.mpr hge
    simp [OnMediaPlayerEvent, hcb, hplayer, hkind, hok2, hd, hp, hge, hlt, Machine.notify,
      Machine.call]
  · have hlt : a.position < a.duration := Int.not_le.mp hge
    simp [OnMediaPlayerEvent, hcb, hplayer, hkind, hok2, hd, hp, hge, hlt, Machine.call]

theorem position_set_event_witness :
    (∃ m1, OnMediaPlayerEvent sampleMachine (some ⟨.POSITION_SET, 0, 0⟩) sampleAnswers
        = some m1 ∧
      m1.g_state.isPlaying = false ∧
      m1.notified = sampleMachine.notified ++ [⟨22, .PLAYBACK_ENDED, S_OK⟩] ∧
      m1.g_state.isLoading = false ∧ m1.g_state.hasVideo = true) ∧
    (∃ m1, OnMediaPlayerEvent sampleMachine (some ⟨.POSITION_SET, 0, 0⟩)
        { sampleAnswers with position := 999 } = some m1 ∧
      m1.notified = sampleMachine.notified ∧ m1.g_state = sampleMachine.g_state) := by
  obtain ⟨m1, h1, hge, -, hl, hv, -⟩ :=
    position_set_event sampleMachine ⟨.POSITION_SET, 0, 0⟩ sampleAnswers
      (by decide) (by decide) rfl (by decide) (by decide) (by decide)
  obtain ⟨m2, h2, -, hlt, -⟩ :=
    position_set_event sampleMachine ⟨.POSITION_SET, 0, 0⟩
      { sampleAnswers with position := 999 }
      (by decide) (by decide) rfl (by decide) (by decide) (by decide)
  exact ⟨⟨m1, h1, (hge (by decide)).1, (hge (by decide)).2, hl, hv⟩,
    ⟨m2, h2, hlt (by decide)⟩⟩

/-! ## Cleanup: the final block -/

theorem CleanupMediaPlayer_clear_spec (m : Machine) :
    (CleanupMediaPlayer_clear m).g_state =
      { player := m.g_state.player, userCallback := 0, hwnd := 0, hasVideo := false,
        isInitialized := false, isPlaying := false, isLoading := false,
        audioVolume := 0, audioSession := 0 } ∧
    (CleanupMediaPlayer_clear m).worker = m.worker ∧
    (CleanupMediaPlayer_clear m).g_hThread = m.g_hThread ∧
    (CleanupMediaPlayer_clear m).g_dwThreadId = m.g_dwThreadId ∧
    (CleanupMediaPlayer_clear m).notified = m.notified := by
  unfold CleanupMediaPlayer_clear
  by_cases hv : m.g_state.audioVolume = 0 <;> by_cases hs : m.g_state.audioSession = 0 <;>
    simp [hv, hs, Machine.call]

theorem CleanupMediaPlayer_some {m m1 : Machine} {j : JoinAnswers}
    (h : CleanupMediaPlayer m j = some m1) :
    ∃ m2, m1 = CleanupMediaPlayer_clear m2 := by
  unfold CleanupMediaPlayer at h
  simp only [Option.map_eq_some'] at h
  obtain ⟨m2, -, h2⟩ := h
  exact ⟨m2, h2.symm⟩

/-- C5. When no listener is registered, `OnMediaPlayerEvent` returns at once
for every event record (null, successful or failed, of any kind): nothing is
notified, no call is made and the machine is unchanged. Every state that
`CleanupMediaPlayer` returns in has no listener registered, so this holds in
all of them. -/
theorem no_listener_no_notification :
    (∀ (m : Machine) (ev : Option MFP_EVENT_HEADER) (a : EventAnswers),
      m.g_state.userCallback = 0 → OnMediaPlayerEvent m ev a = some m) ∧
    (∀ (m m1 : Machine) (j : JoinAnswers), CleanupMediaPlayer m j = some m1 →
      m1.g_state.userCallback = 0 ∧
      ∀ (ev : Option MFP_EVENT_HEADER) (a : EventAnswers),
        OnMediaPlayerEvent m1 ev a = some m1) := by
  have key : ∀ (m : Machine) (ev : Option MFP_EVENT_HEADER) (a : EventAnswers),
      m.g_state.userCallback = 0 → OnMediaPlayerEvent m ev a = some m := by
    intro m ev a h
    cases ev with
    | none => rfl
    | some e => simp [OnMediaPlayerEvent, h]
  refine ⟨key, ?_⟩
  intro m m1 j h
  obtain ⟨m2, rfl⟩ := CleanupMediaPlayer_some h
  have hcb : (CleanupMediaPlayer_clear m2).g_state.userCallback = 0 := by
    rw [(CleanupMediaPlayer_clear_spec m2).1]
  exact ⟨hcb, fun ev a => key _ ev a hcb⟩

theorem no_listener_no_notification_witness :
    OnMediaPlayerEvent Machine.init (some ⟨.PLAY, 0, 0⟩) sampleAnswers = some Machine.init ∧
    (sampleCleaned.g_state.userCallback = 0 ∧
      ∀ (ev : Option MFP_EVENT_HEADER) (a : EventAnswers),
        OnMediaPlayerEvent sampleCleaned ev a = some sampleCleaned) :=
  ⟨no_listener_no_notification.1 Machine.init (some ⟨.PLAY, 0, 0⟩) sampleAnswers rfl,
   no_listener_no_notification.2 sampleMachine sampleCleaned sampleJoin (by decide)⟩

/-! ## PlayFile and PlayURL -/

theorem guard_of_Ready {m : Machine} (h : Ready m) :
    (!m.g_state.isInitialized || decide (m.g_state.player = 0)) = false := by
  simp [h.1, h.2]

theorem guard_of_not_Ready {m : Machine} (h : ¬ Ready m) :
    (!m.g_state.isInitialized || decide (m.g_state.player = 0)) = true := by
  unfold Ready at h
  by_cases hi : m.g_state.isInitialized = true
  · have hp : m.g_state.player = 0 := by_contra fun hp => h ⟨hi, hp⟩
    simp [hp]
  · simp [hi]

/-- C6, as stated, fails: in an initialised state an empty path (a non-null
pointer to an empty string) is not rejected. The request goes to the engine;
when the engine accepts it the call returns `S_OK` with `isLoading` raised
from false to true, and when the engine refuses it the call returns the
status of the engine, not `MP_E_INVALID_PARAMETER`, after `isPlaying` and
`hasVideo` were reset. -/
theorem empty_path_not_rejected :
    run Machine.init sampleRun = some sampleMachine ∧
    Ready sampleMachine ∧ sampleMachine.g_state.isLoading = false ∧
    sampleMachine.g_state.isPlaying = true ∧ sampleMachine.g_state.hasVideo = true ∧
    (PlayFile sampleMachine (some []) S_OK).1 = S_OK ∧
    (PlayFile sampleMachine (some []) S_OK).2.g_state.isLoading = true ∧
    (PlayFile sampleMachine (some []) S_OK).2.calls
      = sampleMachine.calls ++ [.CreateMediaItemFromURL 11 []] ∧
    (PlayFile sampleMachine (some []) E_INVALIDARG).1 ≠ MP_E_INVALID_PARAMETER ∧
    (PlayFile sampleMachine (some []) E_INVALIDARG).2.g_state.isPlaying = false ∧
    (PlayFile sampleMachine (some []) E_INVALIDARG).2.g_state.hasVideo = false ∧
    (PlayFile sampleMachine (some []) E_INVALIDARG).2.calls
      = sampleMachine.calls ++ [.CreateMediaItemFromURL 11 []] := by
  decide

/-- C6, amended. In every initialised state `PlayFile` called with a null
path returns `MP_E_INVALID_PARAMETER`, sends nothing to the engine and leaves
the whole state, `isLoading`, `hasVideo` and `isPlaying` included, as it was.
A present path that is empty is treated like every other present path: the
request is sent to the engine and the status of the engine is returned. -/
theorem null_path_rejected (m : Machine) (hr : HRESULT) (h : Ready m) :
    PlayFile m none hr = (MP_E_INVALID_PARAMETER, m) ∧
    (PlayFile m (some []) hr).1 = hr ∧
    (PlayFile m (some []) hr).2.calls = m.calls ++ [.CreateMediaItemFromURL m.g_state.player []] := by
  have hg := guard_of_Ready h
  refine ⟨?_, ?_, ?_⟩
  · simp [PlayFile, hg]
  · simp [PlayFile, hg]
  · rcases SUCCEEDED_or_FAILED hr with ⟨-, hf⟩ | ⟨-, hf⟩ <;>
      simp [PlayFile, hg, hf, Machine.call]

theorem null_path_rejected_witness :
    PlayFile sampleMachine none S_OK = (MP_E_INVALID_PARAMETER, sampleMachine) ∧
    (PlayFile sampleMachine (some []) S_OK).1 = S_OK ∧
    (PlayFile sampleMachine (some []) S_OK).2.calls =
      sampleMachine.calls ++ [.CreateMediaItemFromURL sampleMachine.g_state.player []] :=
  null_path_rejected sampleMachine S_OK (by decide)

/-- C7, as stated, fails: in the state at process load (no engine) a null
argument makes `PlayFile` return `MP_E_NOT_INITIALIZED` and `PlayURL` return
`MP_E_INVALID_PARAMETER`. -/
theorem play_file_url_differ :
    ¬ Ready Machine.init ∧ Machine.init.g_state.player = 0 ∧
    (PlayFile Machine.init none S_OK).1 = MP_E_NOT_INITIALIZED ∧
    (PlayURL Machine.init none S_OK).1 = MP_E_INVALID_PARAMETER ∧
    (PlayFile Machine.init none S_OK).1 ≠ (PlayURL Machine.init none S_OK).1 := by
  decide

/-- C7, amended. `PlayFile` and `PlayURL` return the same status and the same
state for every state, every engine answer and every argument, except for a
null argument in a state that is not initialised: there `PlayFile` returns
`MP_E_NOT_INITIALIZED` and `PlayURL` returns `MP_E_INVALID_PARAMETER`.
Whenever the state is not initialised (in particular whenever the engine is
absent) neither function changes the state, and both return
`MP_E_NOT_INITIALIZED` for every present argument. -/
theorem play_file_url_agree (m : Machine) (arg : Option (List Nat)) (hr : HRESULT) :
    (Ready m ∨ arg ≠ none → PlayFile m arg hr = PlayURL m arg hr) ∧
    (¬ Ready m →
      (PlayFile m arg hr).2 = m ∧ (PlayURL m arg hr).2 = m ∧
      (PlayFile m arg hr).1 = MP_E_NOT_INITIALIZED ∧
      (arg ≠ none → (PlayURL m arg hr).1 = MP_E_NOT_INITIALIZED) ∧
      (arg = none → (PlayURL m arg hr).1 = MP_E_INVALID_PARAMETER)) := by
  constructor
  · intro h
    by_cases hr0 : Ready m
    · have hg := guard_of_Ready hr0
      cases arg <;> simp [PlayFile, PlayURL, hg]
    · have hg := guard_of_not_Ready hr0
      rcases h with h | h
      · exact absurd h hr0
      · cases arg with
        | none => exact absurd rfl h
        | some u => simp [PlayFile, PlayURL, hg]
  · intro hn
    have hg := guard_of_not_Ready hn
    cases arg <;> simp [PlayFile, PlayURL, hg]

theorem play_file_url_agree_witness :
    PlayFile sampleMachine (some [97]) S_OK = PlayURL sampleMachine (some [97]) S_OK ∧
    ((PlayFile Machine.init (some [97]) S_OK).2 = Machine.init ∧
      (PlayURL Machine.init (some [97]) S_OK).2 = Machine.init ∧
      (PlayFile Machine.init (some [97]) S_OK).1 = MP_E_NOT_INITIALIZED ∧
      (PlayURL Machine.init (some [97]) S_OK).1 = MP_E_NOT_INITIALIZED) ∧
    (PlayURL Machine.init none S_OK).1 = MP_E_INVALID_PARAMETER :=
  ⟨(play_file_url_agree sampleMachine (some [97]) S_OK).1 (Or.inl (by decide)),
   ⟨((play_file_url_agree Machine.init (some [97]) S_OK).2 (by decide)).1,
    ((play_file_url_agree Machine.init (some [97]) S_OK).2 (by decide)).2.1,
    ((play_file_url_agree Machine.init (some [97]) S_OK).2 (by decide)).2.2.1,
    ((play_file_url_agree Machine.init (some [97]) S_OK).2 (by decide)).2.2.2.1 (by decide)⟩,
   ((play_file_url_agree Machine.init none S_OK).2 (by decide)).2.2.2.2 rfl⟩

/-- C8. In every initialised state and for every present path or URL (empty or
not), `PlayFile` and `PlayURL` return exactly the status of
`CreateMediaItemFromURL`; afterwards `hasVideo` and `isPlaying` are false and
`isLoading` is true when that status is a success and false when it is a
failure; `isInitialized`, the engine, the listener, the window and every other
field of the player record are unchanged, and the one request was sent to the
engine. -/
theorem play_request_result (m : Machine) (src : List Nat) (hr : HRESULT) (h : Ready m) :
    PlayURL m (some src) hr = PlayFile m (some src) hr ∧
    (PlayFile m (some src) hr).1 = hr ∧
    (PlayFile m (some src) hr).2.g_state =
      { m.g_state with hasVideo := false, isPlaying := false, isLoading := SUCCEEDED hr } ∧
    (PlayFile m (some src) hr).2.g_state.hasVideo = false ∧
    (PlayFile m (some src) hr).2.g_state.isPlaying = false ∧
    (SUCCEEDED hr = true → (PlayFile m (some src) hr).2.g_state.isLoading = true) ∧
    (FAILED hr = true → (PlayFile m (some src) hr).2.g_state.isLoading = false) ∧
    (PlayFile m (some src) hr).2.g_state.isInitialized = m.g_state.isInitialized ∧
    (PlayFile m (some src) hr).2.g_state.player = m.g_state.player ∧
    (PlayFile m (some src) hr).2.g_state.userCallback = m.g_state.userCallback ∧
    (PlayFile m (some src) hr).2.g_state.hwnd = m.g_state.hwnd ∧
    (PlayFile m (some src) hr).2.calls =
      m.calls ++ [.CreateMediaItemFromURL m.g_state.player src] := by
  have hg := guard_of_Ready h
  rcases SUCCEEDED_or_FAILED hr with ⟨hs, hf⟩ | ⟨hs, hf⟩ <;>
    simp [PlayFile, PlayURL, hg, hs, hf, Machine.call]

theorem play_request_result_witness :
    PlayURL sampleMachine (some [97]) E_FAIL = PlayFile sampleMachine (some [97]) E_FAIL ∧
    (PlayFile sampleMachine (some [97]) E_FAIL).1 = E_FAIL ∧
    (PlayFile sampleMachine (some [97]) E_FAIL).2.g_state.isLoading = false ∧
    (PlayFile sampleMachine (some [97]) S_OK).2.g_state.isLoading = true := by
  have h1 := play_request_result sampleMachine [97] E_FAIL (by decide)
  have h2 := play_request_result sampleMachine [97] S_OK (by decide)
  exact ⟨h1.1, h1.2.1, h1.2.2.2.2.2.2.1 (by decide), h2.2.2.2.2.2.1 (by decide)⟩

/-! ## Volume -/

/-- For every level that compares below `0.0f` or above `1.0f` (the
infinities included) and in every state, initialised or not, audio session
resolved or not, `SetVolume` returns `MP_E_INVALID_PARAMETER` and the machine
is exactly as before: the audio session is neither resolved nor touched, no
level is applied (the call log is unchanged) and no field of the player
record changes. -/
theorem SetVolume_out_of_range (m : Machine) (level : Float32) (a : AudioAnswers)
    (hr : HRESULT)
    (h : Float32.lt level Float32.zero = true ∨ Float32.lt Float32.one level = true) :
    SetVolume m level a hr = (MP_E_INVALID_PARAMETER, m) := by
  have hg : (Float32.lt level Float32.zero || Float32.lt Float32.one level) = true := by
    rcases h with h | h <;> simp [h]
  simp [SetVolume, hg]

theorem SetVolume_out_of_range_witness :
    SetVolume Machine.init Float32.two sampleAudio S_OK
      = (MP_E_INVALID_PARAMETER, Machine.init) ∧
    SetVolume sampleMachine Float32.minusOne sampleAudio S_OK
      = (MP_E_INVALID_PARAMETER, sampleMachine) ∧
    SetVolume sampleWithAudio Float32.two sampleAudio S_OK
      = (MP_E_INVALID_PARAMETER, sampleWithAudio) :=
  ⟨SetVolume_out_of_range Machine.init Float32.two sampleAudio S_OK (Or.inr (by decide)),
   SetVolume_out_of_range sampleMachine Float32.minusOne sampleAudio S_OK
     (Or.inl (by decide)),
   SetVolume_out_of_range sampleWithAudio Float32.two sampleAudio S_OK (Or.inr (by decide))⟩

/-- The comparisons on sample values: negative zero is not below `0.0f`, the
infinities are below `0.0f` and above `1.0f`, the smallest subnormal is
neither. -/
theorem Float32.lt_samples :
    Float32.lt ⟨true, 0, 0⟩ Float32.zero = false ∧
    Float32.lt ⟨true, 255, 0⟩ Float32.zero = true ∧
    Float32.lt Float32.one ⟨false, 255, 0⟩ = true ∧
    Float32.lt ⟨false, 0, 1⟩ Float32.zero = false ∧
    Float32.lt Float32.one ⟨false, 0, 1⟩ = false ∧
    Float32.lt ⟨true, 0, 1⟩ Float32.zero = true := by
  decide

/-- A level inside the interval is not rejected by the range test, and a NaN,
for which both comparisons of the test are false, is not rejected either: in
an initialised state the session is resolved and the level is passed to
`SetMasterVolume`. -/
theorem SetVolume_passes_range_test :
    Float32.lt Float32.qNaN Float32.zero = false ∧
    Float32.lt Float32.one Float32.qNaN = false ∧
    (SetVolume sampleMachine Float32.one sampleAudio S_OK).2.calls = sampleMachine.calls ++
      [.CreateDeviceEnumerator, .GetDefaultAudioEndpoint, .ActivateSessionManager,
        .GetAudioSessionControl, .GetSimpleAudioVolume, .SetMasterVolume 88 Float32.one] ∧
    (SetVolume sampleMachine Float32.qNaN sampleAudio S_OK).2.calls = sampleMachine.calls ++
      [.CreateDeviceEnumerator, .GetDefaultAudioEndpoint, .ActivateSessionManager,
        .GetAudioSessionControl, .GetSimpleAudioVolume, .SetMasterVolume 88 Float32.qNaN] := by
  decide

/-! ## What the steps leave alone -/

theorem SameFrame.refl (m : Machine) : SameFrame m m := ⟨rfl, rfl, rfl, rfl, rfl, rfl⟩

theorem SameFrame.trans {m m1 m2 : Machine} (h1 : SameFrame m m1) (h2 : SameFrame m1 m2) :
    SameFrame m m2 :=
  ⟨h2.1.trans h1.1, h2.2.1.trans h1.2.1, h2.2.2.1.trans h1.2.2.1,
    h2.2.2.2.1.trans h1.2.2.2.1, h2.2.2.2.2.1.trans h1.2.2.2.2.1,
    h2.2.2.2.2.2.trans h1.2.2.2.2.2⟩

theorem OnMediaPlayerEvent_frame {m m1 : Machine} {ev : Option MFP_EVENT_HEADER}
    {a : EventAnswers} (h : OnMediaPlayerEvent m ev a = some m1) : SameFrame m m1 := by
  cases ev with
  | none =>
    simp only [OnMediaPlayerEvent, Option.some.injEq] at h
    subst h
    exact SameFrame.refl m
  | some e =>
    obtain ⟨ty, hr, item⟩ := e
    cases ty <;> simp only [OnMediaPlayerEvent] at h <;> (try split_ifs at h) <;>
      (simp only [Option.some.injEq] at h; subst h
       simp [SameFrame, Machine.notify, Machine.call])

theorem OnMediaPlayerEvent_total (m : Machine) (ev : Option MFP_EVENT_HEADER)
    (a : EventAnswers) (hp : m.g_state.player ≠ 0) :
    ∃ m1, OnMediaPlayerEvent m ev a = some m1 := by
  cases ev with
  | none => exact ⟨m, rfl⟩
  | some e =>
    obtain ⟨ty, hr, item⟩ := e
    cases ty <;> simp only [OnMediaPlayerEvent, if_neg hp] <;> (try split_ifs) <;>
      exact ⟨_, rfl⟩

theorem dispatchAll_frame {m m1 : Machine} {evs : List (Option MFP_EVENT_HEADER × EventAnswers)}
    (h : dispatchAll m evs = some m1) : SameFrame m m1 := by
  induction evs generalizing m with
  | nil =>
    simp only [dispatchAll, Option.some.injEq] at h
    subst h
    exact SameFrame.refl m
  | cons e rest ih =>
    obtain ⟨ev, a⟩ := e
    simp only [dispatchAll] at h
    cases hev : OnMediaPlayerEvent m ev a with
    | none => simp [hev] at h
    | some m2 =>
      rw [hev] at h
      exact (OnMediaPlayerEvent_frame hev).trans (ih h)

theorem dispatchAll_total (m : Machine) (evs : List (Option MFP_EVENT_HEADER × EventAnswers))
    (hp : m.g_state.player ≠ 0) : ∃ m1, dispatchAll m evs = some m1 := by
  induction evs generalizing m with
  | nil => exact ⟨m, rfl⟩
  | cons e rest ih =>
    obtain ⟨ev, a⟩ := e
    obtain ⟨m2, h2⟩ := OnMediaPlayerEvent_total m ev a hp
    have hp2 : m2.g_state.player ≠ 0 := by
      rw [(OnMediaPlayerEvent_frame h2).2.2.2.2.1]
      exact hp
    obtain ⟨m3, h3⟩ := ih m2 hp2
    exact ⟨m3, by simp only [dispatchAll, h2, h3]⟩

/-! ## The worker thread: what its pieces establish -/

theorem MediaThreadProc_teardown_spec (m : Machine) :
    (MediaThreadProc_teardown m).g_state = { m.g_state with player := 0 } ∧
    (MediaThreadProc_teardown m).worker = .returned ∧
    (MediaThreadProc_teardown m).g_hThread = m.g_hThread ∧
    (MediaThreadProc_teardown m).g_dwThreadId = m.g_dwThreadId ∧
    (MediaThreadProc_teardown m).notified = m.notified := by
  obtain ⟨⟨p, cb, hw, hv, ini, pl, ld, av, au⟩, ht, tid, act, hwi, cbi, pc, w, no, ca, qq⟩ := m
  unfold MediaThreadProc_teardown
  by_cases hp : p = 0 <;> by_cases hc : pc = 0 <;> simp [hp, hc, Machine.call]

theorem MediaThreadProc_leave_spec (m : Machine) (why : LoopExit) :
    (MediaThreadProc_leave m why).g_state = { m.g_state with player := 0 } ∧
    (MediaThreadProc_leave m why).worker = .returned ∧
    (MediaThreadProc_leave m why).g_hThread = m.g_hThread ∧
    (MediaThreadProc_leave m why).g_dwThreadId = m.g_dwThreadId ∧
    (MediaThreadProc_leave m why).notified = m.notified := by
  cases why
  · exact MediaThreadProc_teardown_spec { m with g_bThreadActive := false }
  · exact MediaThreadProc_teardown_spec m

/-- The start-up code either reaches the loop, having published the engine,
the listener and the window and set `isInitialized`, or returns with the
engine handle null or untouched and nothing else of the record changed. -/
theorem MediaThreadProc_start_spec (m : Machine) (a : StartAnswers) :
    (MediaThreadProc_start m a).g_hThread = m.g_hThread ∧
    (MediaThreadProc_start m a).notified = m.notified ∧
    (((MediaThreadProc_start m a).worker = .looping ∧
        SUCCEEDED a.hrCreate = true ∧
        (MediaThreadProc_start m a).g_state = { m.g_state with
          player := a.pPlayer, userCallback := m.g_cbInit, hwnd := m.g_hwndInit,
          isInitialized := true }) ∨
      ((MediaThreadProc_start m a).worker = .returned ∧
        ((MediaThreadProc_start m a).g_state = m.g_state ∨
          (MediaThreadProc_start m a).g_state = { m.g_state with player := 0 }))) := by
  obtain ⟨⟨p, cb, hw, hv, ini, pl, ld, av, au⟩, ht, tid, act, hwi, cbi, pc, w, no, ca, qq⟩ := m
  unfold MediaThreadProc_start
  by_cases h1 : FAILED a.hrCoInitialize = true
  · simp [h1]
  · by_cases h2 : FAILED a.hrMFStartup = true
    · simp [h1, h2]
    · by_cases h3 : a.pCallback = 0
      · simp [h1, h2, h3]
      · by_cases h4 : SUCCEEDED a.hrCreate = true
        · simp [h1, h2, h3, h4, Machine.call]
        · simp [h1, h2, h3, h4, Machine.call]

/-! ## The exported functions: what they leave alone -/

theorem InitializeAudioControl_frame (m : Machine) (a : AudioAnswers) :
    SameFrame m (InitializeAudioControl m a).2 := by
  unfold InitializeAudioControl
  split_ifs <;> simp [SameFrame, Machine.call]

theorem PlayFile_frame (m : Machine) (arg : Option (List Nat)) (hr : HRESULT) :
    SameFrame m (PlayFile m arg hr).2 := by
  unfold PlayFile
  cases arg <;> simp only <;> split_ifs <;> simp [SameFrame, Machine.call]

theorem PlayURL_frame (m : Machine) (arg : Option (List Nat)) (hr : HRESULT) :
    SameFrame m (PlayURL m arg hr).2 := by
  unfold PlayURL
  cases arg <;> simp only <;> (try split_ifs) <;> simp [SameFrame, Machine.call]

theorem PausePlayback_frame (m : Machine) (hr : HRESULT) :
    SameFrame m (PausePlayback m hr).2 := by
  unfold PausePlayback
  split_ifs <;> simp [SameFrame, Machine.call]

theorem ResumePlayback_frame (m : Machine) (hr : HRESULT) :
    SameFrame m (ResumePlayback m hr).2 := by
  unfold ResumePlayback
  split_ifs <;> simp [SameFrame, Machine.call]

theorem StopPlayback_frame (m : Machine) (hr : HRESULT) :
    SameFrame m (StopPlayback m hr).2 := by
  unfold StopPlayback
  split_ifs <;> simp [SameFrame, Machine.call]

theorem UpdateVideo_frame (m : Machine) : SameFrame m (UpdateVideo m) := by
  unfold UpdateVideo
  split_ifs <;> simp [SameFrame, Machine.call]

theorem SetVolume_frame (m : Machine) (level : Float32) (a : AudioAnswers) (hr : HRESULT) :
    SameFrame m (SetVolume m level a hr).2 := by
  have h := InitializeAudioControl_frame m a
  unfold SetVolume
  generalize InitializeAudioControl m a = r at h ⊢
  obtain ⟨hr0, m0⟩ := r
  simp only
  split_ifs <;> first
    | exact SameFrame.refl m
    | exact h

theorem GetVolume_frame (m : Machine) (pLevel : Nat) (a : AudioAnswers) (hr : HRESULT) :
    SameFrame m (GetVolume m pLevel a hr).2 := by
  have h := InitializeAudioControl_frame m a
  unfold GetVolume
  generalize InitializeAudioControl m a = r at h ⊢
  obtain ⟨hr0, m0⟩ := r
  simp only
  split_ifs <;> first
    | exact SameFrame.refl m
    | exact h

theorem SetMute_frame (m : Machine) (bMute : Bool) (a : AudioAnswers) (hr : HRESULT) :
    SameFrame m (SetMute m bMute a hr).2 := by
  have h := InitializeAudioControl_frame m a
  unfold SetMute
  generalize InitializeAudioControl m a = r at h ⊢
  obtain ⟨hr0, m0⟩ := r
  simp only
  split_ifs <;> first
    | exact SameFrame.refl m
    | exact h

theorem GetMute_frame (m : Machine) (pbMute : Nat) (a : AudioAnswers) (hr : HRESULT) :
    SameFrame m (GetMute m pbMute a hr).2 := by
  have h := InitializeAudioControl_frame m a
  unfold GetMute
  generalize InitializeAudioControl m a = r at h ⊢
  obtain ⟨hr0, m0⟩ := r
  simp only
  split_ifs <;> first
    | exact SameFrame.refl m
    | exact h

theorem GetDuration_frame (m : Machine) (pDuration : Nat) (hr : HRESULT) :
    SameFrame m (GetDuration m pDuration hr).2 := by
  unfold GetDuration
  split_ifs <;> simp [SameFrame, Machine.call]

theorem GetCurrentPosition_frame (m : Machine) (pPosition : Nat) (hr : HRESULT) :
    SameFrame m (GetCurrentPosition m pPosition hr).2 := by
  unfold GetCurrentPosition
  split_ifs <;> simp [SameFrame, Machine.call]

theorem SetPosition_frame (m : Machine) (position : Int) (hr : HRESULT) :
    SameFrame m (SetPosition m position hr).2 := by
  unfold SetPosition
  split_ifs <;> simp [SameFrame, Machine.call]

theorem Inv_of_SameFrame {m m1 : Machine} (h : SameFrame m m1) (hi : Inv m) : Inv m1 := by
  obtain ⟨hw, ht, -, -, hp, hini⟩ := h
  unfold Inv at *
  rw [hw, ht, hp, hini]
  exact hi

/-! ## The join and the invariant -/

theorem OnMediaPlayerEvent_queue {m m1 : Machine} {ev : Option MFP_EVENT_HEADER}
    {a : EventAnswers} (h : OnMediaPlayerEvent m ev a = some m1) :
    m1.quitQueued = m.quitQueued ∧ m1.g_bThreadActive = m.g_bThreadActive := by
  cases ev with
  | none =>
    rw [← Option.some.inj h]
    exact ⟨rfl, rfl⟩
  | some e =>
    obtain ⟨ty, hr, item⟩ := e
    cases ty <;> simp only [OnMediaPlayerEvent] at h <;> (try split_ifs at h) <;>
      (simp only [Option.some.injEq] at h; subst h
       simp [Machine.notify, Machine.call])

theorem dispatchAll_queue {m m1 : Machine} {evs : List (Option MFP_EVENT_HEADER × EventAnswers)}
    (h : dispatchAll m evs = some m1) :
    m1.quitQueued = m.quitQueued ∧ m1.g_bThreadActive = m.g_bThreadActive := by
  induction evs generalizing m with
  | nil =>
    rw [← Option.some.inj h]
    exact ⟨rfl, rfl⟩
  | cons e rest ih =>
    obtain ⟨ev, a⟩ := e
    simp only [dispatchAll] at h
    cases hev : OnMediaPlayerEvent m ev a with
    | none => simp [hev] at h
    | some m2 =>
      rw [hev] at h
      obtain ⟨q1, f1⟩ := OnMediaPlayerEvent_queue hev
      obtain ⟨q2, f2⟩ := ih h
      exact ⟨q2.trans q1, f2.trans f1⟩

/-- When the worker returns from its loop the engine handle is null. -/
theorem loopToReturn_spec {m m1 : Machine} {j : JoinAnswers} (h : loopToReturn m j = some m1) :
    m1.g_state.player = 0 ∧ m1.g_hThread = m.g_hThread ∧ m1.worker = .returned := by
  unfold loopToReturn at h
  cases hd : dispatchAll m j.events with
  | none => simp [hd] at h
  | some m2 =>
    have hf := dispatchAll_frame hd
    simp only [hd] at h
    cases hw : j.why with
    | waitFailed =>
      simp only [hw, Option.some.injEq] at h
      subst h
      obtain ⟨hs, hwk, hth, -, -⟩ := MediaThreadProc_leave_spec m2 .waitFailed
      exact ⟨by rw [hs], by rw [hth, hf.2.1], hwk⟩
    | quit =>
      simp only [hw] at h
      split_ifs at h
      · rw [← Option.some.inj h]
        obtain ⟨hs, hwk, hth, -, -⟩ :=
          MediaThreadProc_leave_spec { m2 with quitQueued := false } .quit
        exact ⟨by rw [hs], by rw [hth]; exact hf.2.1, hwk⟩
      · rw [← Option.some.inj h]
        obtain ⟨hs, hwk, hth, -, -⟩ := MediaThreadProc_leave_spec m2 .quit
        exact ⟨by rw [hs], by rw [hth, hf.2.1], hwk⟩

/-- The worker returns from its loop when a wait fails, when the quit message
waits in its queue, or when events wake it and the flag is cleared. -/
theorem loopToReturn_total (m : Machine) (j : JoinAnswers) (hp : m.g_state.player ≠ 0)
    (hc : j.why = .waitFailed ∨ m.quitQueued = true ∨
      (m.g_bThreadActive = false ∧ j.events ≠ [])) :
    ∃ m1, loopToReturn m j = some m1 := by
  obtain ⟨m2, hd⟩ := dispatchAll_total m j.events hp
  obtain ⟨hq, hf⟩ := dispatchAll_queue hd
  unfold loopToReturn
  simp only [hd]
  cases hw : j.why with
  | waitFailed => exact ⟨_, rfl⟩
  | quit =>
    simp only
    by_cases hqq : m2.quitQueued = true
    · rw [if_pos hqq]
      exact ⟨_, rfl⟩
    · rw [if_neg hqq]
      rcases hc with hc | hc | ⟨hc1, hc2⟩
      · rw [hw] at hc
        exact absurd hc (by decide)
      · rw [hq] at hqq
        exact absurd hc hqq
      · have hne : j.events.isEmpty = false := by
          cases hev : j.events with
          | nil => exact absurd hev hc2
          | cons e rest => rfl
        rw [hf, hc1, hne]
        exact ⟨_, rfl⟩

/-- The worker stays in its loop for ever when no wait fails, no quit message
waits in its queue and the flag is set. -/
theorem loopToReturn_blocked (m : Machine) (j : JoinAnswers) (hw : j.why = .quit)
    (hq : m.quitQueued = false) (hf : m.g_bThreadActive = true) :
    loopToReturn m j = none := by
  unfold loopToReturn
  cases hd : dispatchAll m j.events with
  | none => rfl
  | some m2 =>
    obtain ⟨hq2, hf2⟩ := dispatchAll_queue hd
    simp [hw, hq2, hq, hf2, hf]

theorem MediaThreadProc_start_loop (m : Machine) (a : StartAnswers) :
    (MediaThreadProc_start m a).quitQueued = m.quitQueued ∧
    (a.reachesLoop = true → (MediaThreadProc_start m a).worker = .looping ∧
      (MediaThreadProc_start m a).g_bThreadActive = true) ∧
    (a.reachesLoop = false → (MediaThreadProc_start m a).worker = .returned) := by
  unfold MediaThreadProc_start StartAnswers.reachesLoop
  by_cases h1 : FAILED a.hrCoInitialize = true
  · simp [h1]
  · by_cases h2 : FAILED a.hrMFStartup = true
    · simp [h1, h2]
    · by_cases h3 : a.pCallback = 0
      · simp [h1, h2, h3]
      · by_cases h4 : SUCCEEDED a.hrCreate = true <;> simp [h1, h2, h3, h4, Machine.call]

/-- After the join the engine handle is null and the worker has returned,
whatever the worker still did. -/
theorem runWorkerToReturn_spec {m m1 : Machine} {j : JoinAnswers} (hi : Inv m)
    (h : runWorkerToReturn m j = some m1) :
    m1.g_state.player = 0 ∧ m1.g_hThread = m.g_hThread ∧ m1.worker ≠ .looping ∧
    m1.worker ≠ .spawned := by
  obtain ⟨hloop, hspawn, hrest⟩ := hi
  unfold runWorkerToReturn at h
  cases hw : m.worker with
  | absent =>
    simp only [hw, Option.some.injEq] at h
    subst h
    exact ⟨hrest (Or.inl hw), rfl, by simp [hw], by simp [hw]⟩
  | returned =>
    simp only [hw, Option.some.injEq] at h
    subst h
    exact ⟨hrest (Or.inr hw), rfl, by simp [hw], by simp [hw]⟩
  | looping =>
    simp only [hw] at h
    obtain ⟨hp, hth, hwk⟩ := loopToReturn_spec h
    exact ⟨hp, hth, by simp [hwk], by simp [hwk]⟩
  | spawned =>
    simp only [hw] at h
    obtain ⟨hth0, -, hdisj⟩ := MediaThreadProc_start_spec m j.start
    rcases hdisj with ⟨hl, -, -⟩ | ⟨hr, hst⟩
    · simp only [hl, if_true] at h
      obtain ⟨hp, hth, hwk⟩ := loopToReturn_spec h
      exact ⟨hp, by rw [hth, hth0], by simp [hwk], by simp [hwk]⟩
    · simp only [hr] at h
      simp only [reduceCtorEq, if_false, Option.some.injEq] at h
      subst h
      refine ⟨?_, hth0, by simp [hr], by simp [hr]⟩
      rcases hst with hst | hst
      · rw [hst]
        exact (hspawn hw).2.2
      · rw [hst]

theorem CleanupMediaPlayer_signal_frame (m : Machine) :
    SameFrame m (CleanupMediaPlayer_signal m) := by
  unfold CleanupMediaPlayer_signal
  simp only
  split_ifs <;> simp [SameFrame, Machine.call]

theorem CleanupMediaPlayer_join_spec {m m1 : Machine} {j : JoinAnswers} (hi : Inv m)
    (h : CleanupMediaPlayer_join m j = some m1) :
    m1.g_state.player = 0 ∧ m1.g_hThread = 0 ∧ m1.g_dwThreadId = 0 ∧
    (m1.worker = .absent ∨ m1.worker = .returned) := by
  unfold CleanupMediaPlayer_join at h
  simp only [Option.map_eq_some'] at h
  obtain ⟨m2, h2, rfl⟩ := h
  by_cases ht : m.g_hThread = 0
  · simp only [ht, ne_eq, not_true_eq_false, if_false, Option.some.injEq] at h2
    subst h2
    have hwk : m.worker = .absent ∨ m.worker = .returned := by
      cases hk : m.worker with
      | absent => exact Or.inl rfl
      | returned => exact Or.inr rfl
      | looping => exact absurd ht (hi.1 hk).1
      | spawned => exact absurd ht (hi.2.1 hk).1
    exact ⟨hi.2.2 hwk, ht, rfl, hwk⟩
  · simp only [ne_eq, ht, not_false_eq_true, if_true, Option.map_eq_some'] at h2
    obtain ⟨m3, h3, rfl⟩ := h2
    obtain ⟨hp, -, -, -⟩ := runWorkerToReturn_spec hi h3
    exact ⟨hp, rfl, rfl, Or.inl rfl⟩

/-- What `CleanupMediaPlayer` establishes from a state that satisfies the
invariant. -/
theorem CleanupMediaPlayer_spec {m m1 : Machine} {j : JoinAnswers} (hi : Inv m)
    (h : CleanupMediaPlayer m j = some m1) :
    m1.g_state = g_state_init ∧ m1.g_hThread = 0 ∧ m1.g_dwThreadId = 0 ∧
    (m1.worker = .absent ∨ m1.worker = .returned) := by
  unfold CleanupMediaPlayer at h
  simp only [Option.map_eq_some'] at h
  obtain ⟨m2, h2, rfl⟩ := h
  obtain ⟨hp, ht, hid, hw⟩ :=
    CleanupMediaPlayer_join_spec (Inv_of_SameFrame (CleanupMediaPlayer_signal_frame m) hi) h2
  obtain ⟨hs, hw2, hth2, hid2, -⟩ := CleanupMediaPlayer_clear_spec m2
  rw [hs, hw2, hth2, hid2, hp]
  exact ⟨rfl, ht, hid, hw⟩

theorem CleanupMediaPlayer_signal_spec (m : Machine) :
    (CleanupMediaPlayer_signal m).g_bThreadActive = false ∧
    (CleanupMediaPlayer_signal m).quitQueued =
      (decide (m.g_dwThreadId ≠ 0) && decide (m.worker = .looping)) := by
  unfold CleanupMediaPlayer_signal
  simp only
  split_ifs with h <;> simp [Machine.call, h]

/-- The call returns under the conditions of `JoinReturns`. -/
theorem CleanupMediaPlayer_total (m : Machine) (j : JoinAnswers) (hi : Inv m)
    (hj : JoinReturns m j) : ∃ m1, CleanupMediaPlayer m j = some m1 := by
  have hfr := CleanupMediaPlayer_signal_frame m
  obtain ⟨hloop, hspawn, hrest⟩ := Inv_of_SameFrame hfr hi
  obtain ⟨hflag, hqq⟩ := CleanupMediaPlayer_signal_spec m
  have hrun : ∃ m2, runWorkerToReturn (CleanupMediaPlayer_signal m) j = some m2 := by
    unfold runWorkerToReturn
    cases hw : (CleanupMediaPlayer_signal m).worker with
    | absent => exact ⟨_, rfl⟩
    | returned => exact ⟨_, rfl⟩
    | looping =>
      have hw0 : m.worker = .looping := by rw [← hfr.1]; exact hw
      refine loopToReturn_total _ j (hloop hw).2.2 ?_
      rcases hj.1 hw0 with h | h | h
      · right
        left
        rw [hqq]
        simp [h, hw0]
      · exact Or.inl h
      · exact Or.inr (Or.inr ⟨hflag, h⟩)
    | spawned =>
      have hw0 : m.worker = .spawned := by rw [← hfr.1]; exact hw
      obtain ⟨hwf, hc⟩ := hj.2 hw0
      obtain ⟨-, hreach, hfail⟩ := MediaThreadProc_start_loop (CleanupMediaPlayer_signal m) j.start
      simp only
      cases hr : j.start.reachesLoop with
      | false =>
        rw [hfail hr]
        exact ⟨_, rfl⟩
      | true =>
        rw [(hreach hr).1, if_pos rfl]
        have hwait : j.why = .waitFailed := by
          rcases hc with hc | hc
          · rw [hr] at hc
            exact absurd hc (by decide)
          · exact hc
        refine loopToReturn_total _ j ?_ (Or.inl hwait)
        obtain ⟨-, -, hdisj⟩ := MediaThreadProc_start_spec (CleanupMediaPlayer_signal m) j.start
        rcases hdisj with ⟨-, hs, hst⟩ | ⟨hret, -⟩
        · rw [hst]
          simpa [StartAnswers.wellFormed, hs] using hwf
        · rw [(hreach hr).1] at hret
          exact absurd hret (by decide)
  obtain ⟨m2, h2⟩ := hrun
  unfold CleanupMediaPlayer CleanupMediaPlayer_join
  by_cases ht : (CleanupMediaPlayer_signal m).g_hThread = 0
  · simp only [ht, ne_eq, not_true_eq_false, if_false, Option.map_some']
    exact ⟨_, rfl⟩
  · simp only [ht, ne_eq, not_false_eq_true, if_true, h2, Option.map_some']
    exact ⟨_, rfl⟩

/-- Called before the created worker has started, `CleanupMediaPlayer` never
returns when the start-up code of the worker reaches the message loop and no
wait of the loop fails: the quit message was lost, and the start-up code sets
`g_bThreadActive` again after the call cleared it. -/
theorem CleanupMediaPlayer_blocked (m : Machine) (j : JoinAnswers) (hi : Inv m)
    (hw : m.worker = .spawned) (hr : j.start.reachesLoop = true) (hq : j.why = .quit) :
    CleanupMediaPlayer m j = none := by
  have hfr := CleanupMediaPlayer_signal_frame m
  obtain ⟨-, hqq⟩ := CleanupMediaPlayer_signal_spec m
  have hw1 : (CleanupMediaPlayer_signal m).worker = .spawned := by rw [hfr.1]; exact hw
  have ht : (CleanupMediaPlayer_signal m).g_hThread ≠ 0 := by
    rw [hfr.2.1]
    exact (hi.2.1 hw).1
  obtain ⟨hq1, hreach, -⟩ := MediaThreadProc_start_loop (CleanupMediaPlayer_signal m) j.start
  have hblock : runWorkerToReturn (CleanupMediaPlayer_signal m) j = none := by
    unfold runWorkerToReturn
    simp only [hw1, (hreach hr).1, if_true]
    refine loopToReturn_blocked _ j hq ?_ (hreach hr).2
    rw [hq1, hqq]
    simp [hw]
  unfold CleanupMediaPlayer CleanupMediaPlayer_join
  simp [ht, hblock]

theorem Inv_init : Inv Machine.init := by
  refine ⟨?_, ?_, ?_⟩ <;> intro h <;> first | exact absurd h (by decide) | rfl

theorem InitializeMediaPlayer_Inv (m : Machine) (hwnd callback : Nat) (t : ThreadAnswer)
    (hi : Inv m) (hw : m.worker ≠ .spawned) : Inv (InitializeMediaPlayer m hwnd callback t).2 := by
  obtain ⟨hloop, hspawn, hrest⟩ := hi
  unfold InitializeMediaPlayer
  by_cases h1 : m.g_state.isInitialized = true
  · simp only [h1, if_true]
    exact ⟨hloop, hspawn, hrest⟩
  · by_cases h2 : (hwnd = 0 || callback = 0) = true
    · simp only [h1, h2, if_true, if_false, Bool.false_eq_true]
      exact ⟨hloop, hspawn, hrest⟩
    · have hwk : m.worker = .absent ∨ m.worker = .returned := by
        cases hk : m.worker with
        | absent => exact Or.inl rfl
        | returned => exact Or.inr rfl
        | looping => exact absurd (hloop hk).2.1 h1
        | spawned => exact absurd hk hw
      have hp := hrest hwk
      have hini : m.g_state.isInitialized = false := by simpa using h1
      by_cases h3 : t.hThread = 0
      · simp only [h1, h2, h3, if_true, if_false, Bool.false_eq_true, Machine.call]
        refine ⟨?_, ?_, fun _ => hp⟩ <;> intro hk <;> rcases hwk with h | h <;>
          simp [h] at hk
      · simp only [h1, h2, h3, if_false, Bool.false_eq_true, Machine.call]
        refine ⟨?_, fun _ => ⟨h3, hini, hp⟩, fun _ => hp⟩
        intro hk
        simp at hk

theorem MediaThreadProc_start_Inv (m : Machine) (a : StartAnswers) (hi : Inv m)
    (hw : m.worker = .spawned) (ha : a.wellFormed = true) : Inv (MediaThreadProc_start m a) := by
  obtain ⟨hth, -, hini0, hp0⟩ := (⟨(hi.2.1 hw).1, trivial, (hi.2.1 hw).2.1, (hi.2.1 hw).2.2⟩ :
    m.g_hThread ≠ 0 ∧ True ∧ m.g_state.isInitialized = false ∧ m.g_state.player = 0)
  obtain ⟨hth1, -, hdisj⟩ := MediaThreadProc_start_spec m a
  rcases hdisj with ⟨hl, hs, hst⟩ | ⟨hr, hst⟩
  · have hp : a.pPlayer ≠ 0 := by simpa [StartAnswers.wellFormed, hs] using ha
    refine ⟨fun _ => ⟨by rw [hth1]; exact hth, by rw [hst], by rw [hst]; exact hp⟩, ?_, ?_⟩
    · intro hk
      rw [hl] at hk
      exact absurd hk (by decide)
    · intro hk
      rw [hl] at hk
      rcases hk with hk | hk <;> exact absurd hk (by decide)
  · have hp : (MediaThreadProc_start m a).g_state.player = 0 := by
      rcases hst with hst | hst
      · rw [hst]
        exact hp0
      · rw [hst]
    refine ⟨?_, ?_, fun _ => hp⟩ <;> intro hk <;> rw [hr] at hk <;>
      exact absurd hk (by decide)

theorem MediaThreadProc_leave_Inv (m : Machine) (why : LoopExit) :
    Inv (MediaThreadProc_leave m why) := by
  obtain ⟨hs, hw, -, -, -⟩ := MediaThreadProc_leave_spec m why
  refine ⟨?_, ?_, fun _ => by rw [hs]⟩ <;> intro hk <;> rw [hw] at hk <;>
    exact absurd hk (by decide)

theorem CleanupMediaPlayer_Inv {m m1 : Machine} {j : JoinAnswers} (hi : Inv m)
    (h : CleanupMediaPlayer m j = some m1) : Inv m1 := by
  obtain ⟨hs, -, -, hw⟩ := CleanupMediaPlayer_spec hi h
  refine ⟨?_, ?_, fun _ => by rw [hs]; rfl⟩ <;> intro hk <;> rcases hw with h | h <;>
    rw [h] at hk <;> exact absurd hk (by decide)

/-- Every step keeps the invariant. -/
theorem step_Inv {m m1 : Machine} {op : Op} (hi : Inv m) (h : step m op = some m1) :
    Inv m1 := by
  cases op with
  | init hwnd callback t =>
    simp only [step] at h
    split_ifs at h with hw
    simp only [Option.some.injEq] at h
    subst h
    exact InitializeMediaPlayer_Inv m hwnd callback t hi hw
  | workerStart a =>
    simp only [step] at h
    split_ifs at h with hw
    simp only [Option.some.injEq] at h
    subst h
    simp only [Bool.and_eq_true, decide_eq_true_eq] at hw
    exact MediaThreadProc_start_Inv m a hi hw.1 hw.2
  | engineEvent ev a =>
    simp only [step] at h
    split_ifs at h with hw
    exact Inv_of_SameFrame (OnMediaPlayerEvent_frame h) hi
  | workerLeave why =>
    simp only [step] at h
    split_ifs at h with hw
    simp only [Option.some.injEq] at h
    subst h
    exact MediaThreadProc_leave_Inv m why
  | cleanup j => exact CleanupMediaPlayer_Inv hi h
  | playFile arg hr =>
    simp only [step, Option.some.injEq] at h
    subst h
    exact Inv_of_SameFrame (PlayFile_frame m arg hr) hi
  | playURL arg hr =>
    simp only [step, Option.some.injEq] at h
    subst h
    exact Inv_of_SameFrame (PlayURL_frame m arg hr) hi
  | pause hr =>
    simp only [step, Option.some.injEq] at h
    subst h
    exact Inv_of_SameFrame (PausePlayback_frame m hr) hi
  | resume hr =>
    simp only [step, Option.some.injEq] at h
    subst h
    exact Inv_of_SameFrame (ResumePlayback_frame m hr) hi
  | stop hr =>
    simp only [step, Option.some.injEq] at h
    subst h
    exact Inv_of_SameFrame (StopPlayback_frame m hr) hi
  | updateVideo =>
    simp only [step, Option.some.injEq] at h
    subst h
    exact Inv_of_SameFrame (UpdateVideo_frame m) hi
  | setVolume level a hr =>
    simp only [step, Option.some.injEq] at h
    subst h
    exact Inv_of_SameFrame (SetVolume_frame m level a hr) hi
  | getVolume pLevel a hr =>
    simp only [step, Option.some.injEq] at h
    subst h
    exact Inv_of_SameFrame (GetVolume_frame m pLevel a hr) hi
  | setMute bMute a hr =>
    simp only [step, Option.some.injEq] at h
    subst h
    exact Inv_of_SameFrame (SetMute_frame m bMute a hr) hi
  | getMute pbMute a hr =>
    simp only [step, Option.some.injEq] at h
    subst h
    exact Inv_of_SameFrame (GetMute_frame m pbMute a hr) hi
  | getDuration pDuration hr =>
    simp only [step, Option.some.injEq] at h
    subst h
    exact Inv_of_SameFrame (GetDuration_frame m pDuration hr) hi
  | getCurrentPosition pPosition hr =>
    simp only [step, Option.some.injEq] at h
    subst h
    exact Inv_of_SameFrame (GetCurrentPosition_frame m pPosition hr) hi
  | setPosition position hr =>
    simp only [step, Option.some.injEq] at h
    subst h
    exact Inv_of_SameFrame (SetPosition_frame m position hr) hi

theorem run_Inv {m m1 : Machine} {ops : List Op} (hi : Inv m) (h : run m ops = some m1) :
    Inv m1 := by
  induction ops generalizing m with
  | nil =>
    simp only [run, Option.some.injEq] at h
    subst h
    exact hi
  | cons op rest ih =>
    simp only [run] at h
    cases hs : step m op with
    | none => simp [hs] at h
    | some m2 =>
      rw [hs] at h
      exact ih (step_Inv hi hs) h

theorem Reachable_Inv {m : Machine} (h : Reachable m) : Inv m := by
  obtain ⟨ops, h⟩ := h
  exact run_Inv Inv_init h

/-! ## Cleanup and the next initialisation -/

/-- C4, as stated, fails twice. Called right after a successful
`InitializeMediaPlayer`, before the created worker has run,
`CleanupMediaPlayer` does not terminate when the start-up code of the worker
then reaches the message loop and no wait fails: the quit message was posted
to a thread without a message queue and the worker sets `g_bThreadActive`
again. And after a `CleanupMediaPlayer` that returns (here from the state at
process load, which it leaves as it is) `InitializeMediaPlayer` with a window
and a listener does not return `S_OK` when `CreateThread` fails: it returns
the converted last error, here `0x80070008` for `ERROR_NOT_ENOUGH_MEMORY`,
and no worker exists. -/
theorem relifecycle_thread_failure :
    run Machine.init [.init 33 22 ⟨44, 55, 0⟩] = some sampleSpawned ∧
    sampleJoin.start.reachesLoop = true ∧ sampleJoin.why = .quit ∧
    CleanupMediaPlayer sampleSpawned sampleJoin = none ∧
    CleanupMediaPlayer Machine.init sampleJoin = some Machine.init ∧
    (InitializeMediaPlayer Machine.init 33 22 ⟨0, 0, 8⟩).1 = 0x80070008 - 2 ^ 32 ∧
    (InitializeMediaPlayer Machine.init 33 22 ⟨0, 0, 8⟩).1 ≠ S_OK ∧
    (InitializeMediaPlayer Machine.init 33 22 ⟨0, 0, 8⟩).2.worker = .absent := by
  decide

theorem sampleLoading_reachable : Reachable sampleLoading :=
  ⟨[.init 33 22 ⟨44, 55, 0⟩, .workerStart ⟨0, 0, 66, 0, 11⟩, .playFile (some [97]) 0],
    by decide⟩

/-- C4, amended. From every reachable state, the state in which
`InitializeMediaPlayer` was never called included, `CleanupMediaPlayer`
terminates in the uninitialised state whenever the worker thread it waits for
returns (`JoinReturns`: there is no worker, or it has returned, or it is in
its message loop and the quit message reaches it, or a wait of its loop
fails, or its start-up code fails): `isInitialized`, `isPlaying`, `isLoading`
and `hasVideo` are false and the engine, the listener, the window and the
audio session and volume handles are null, the player record being the one of
process load, and no worker is left. In that state `InitializeMediaPlayer`
with a window and a listener passes its two checks and calls `CreateThread`,
leaving the player record as it is; when `CreateThread` returns a thread the
call returns `S_OK` and a worker is created, and when `CreateThread` fails
the call returns the converted last error and creates no worker. -/
theorem cleanup_relifecycle (m : Machine) (j : JoinAnswers) (hm : Reachable m)
    (hj : JoinReturns m j) :
    ∃ m1, CleanupMediaPlayer m j = some m1 ∧
      m1.g_state = g_state_init ∧ Uninitialised m1.g_state ∧
      (m1.worker = .absent ∨ m1.worker = .returned) ∧
      ∀ (hwnd callback : Nat) (t : ThreadAnswer), hwnd ≠ 0 → callback ≠ 0 →
        (InitializeMediaPlayer m1 hwnd callback t).2.calls = m1.calls ++ [.CreateThread] ∧
        (InitializeMediaPlayer m1 hwnd callback t).2.g_state = g_state_init ∧
        (t.hThread ≠ 0 →
          (InitializeMediaPlayer m1 hwnd callback t).1 = S_OK ∧
          (InitializeMediaPlayer m1 hwnd callback t).2.worker = .spawned ∧
          (InitializeMediaPlayer m1 hwnd callback t).2.g_hThread = t.hThread) ∧
        (t.hThread = 0 →
          (InitializeMediaPlayer m1 hwnd callback t).1 = HRESULT_FROM_WIN32 t.lastError ∧
          (InitializeMediaPlayer m1 hwnd callback t).2.worker = m1.worker ∧
          (InitializeMediaPlayer m1 hwnd callback t).2.g_hThread = 0) := by
  have hi := Reachable_Inv hm
  obtain ⟨m1, h1⟩ := CleanupMediaPlayer_total m j hi hj
  obtain ⟨hs, -, -, hw⟩ := CleanupMediaPlayer_spec hi h1
  have hini : m1.g_state.isInitialized = false := by rw [hs]; rfl
  refine ⟨m1, h1, hs, ?_, hw, ?_⟩
  · rw [hs]
    exact ⟨rfl, rfl, rfl, rfl, rfl, rfl, rfl, rfl, rfl⟩
  · intro hwnd callback t hwnd0 hcb
    by_cases h3 : t.hThread = 0
    · simp [InitializeMediaPlayer, hs, g_state_init, hwnd0, hcb, h3, Machine.call]
    · simp [InitializeMediaPlayer, hs, g_state_init, hwnd0, hcb, h3, Machine.call]

theorem cleanup_relifecycle_witness :
    (∃ m1, CleanupMediaPlayer Machine.init sampleJoin = some m1 ∧
      Uninitialised m1.g_state ∧
      (InitializeMediaPlayer m1 33 22 ⟨44, 55, 0⟩).1 = S_OK ∧
      (InitializeMediaPlayer m1 33 22 ⟨44, 55, 0⟩).2.worker = .spawned) ∧
    (∃ m1, CleanupMediaPlayer sampleLoading sampleJoin = some m1 ∧
      Uninitialised m1.g_state ∧
      (InitializeMediaPlayer m1 33 22 ⟨44, 55, 0⟩).1 = S_OK ∧
      (InitializeMediaPlayer m1 33 22 ⟨0, 0, 8⟩).1 = HRESULT_FROM_WIN32 8 ∧
      (InitializeMediaPlayer m1 33 22 ⟨0, 0, 8⟩).2.worker = m1.worker) ∧
    (∃ m1, CleanupMediaPlayer sampleSpawned { sampleJoin with why := .waitFailed } = some m1 ∧
      Uninitialised m1.g_state) := by
  obtain ⟨m1, h1, -, hu1, -, hinit1⟩ :=
    cleanup_relifecycle Machine.init sampleJoin ⟨[], rfl⟩
      ⟨fun h => absurd h (by decide), fun h => absurd h (by decide)⟩
  obtain ⟨m2, h2, -, hu2, -, hinit2⟩ :=
    cleanup_relifecycle sampleLoading sampleJoin sampleLoading_reachable
      ⟨fun _ => Or.inl (by decide), fun h => absurd h (by decide)⟩
  obtain ⟨m3, h3, -, hu3, -, -⟩ :=
    cleanup_relifecycle sampleSpawned { sampleJoin with why := .waitFailed }
      ⟨[.init 33 22 ⟨44, 55, 0⟩], by decide⟩
      ⟨fun h => absurd h (by decide), fun _ => ⟨by decide, Or.inr rfl⟩⟩
  have a1 := hinit1 33 22 ⟨44, 55, 0⟩ (by decide) (by decide)
  have a2 := hinit2 33 22 ⟨44, 55, 0⟩ (by decide) (by decide)
  have a3 := hinit2 33 22 ⟨0, 0, 8⟩ (by decide) (by decide)
  exact ⟨⟨m1, h1, hu1, (a1.2.2.1 (by decide)).1, (a1.2.2.1 (by decide)).2.1⟩,
    ⟨m2, h2, hu2, (a2.2.2.1 (by decide)).1, (a3.2.2.2 rfl).1, (a3.2.2.2 rfl).2.1⟩,
    ⟨m3, h3, hu3⟩⟩

/-! ## Transport commands -/

/-- In a reachable state the engine handle is non-null exactly when the guard
of the exported functions passes. -/
theorem Reachable_player_iff_Ready {m : Machine} (h : Reachable m) :
    m.g_state.player ≠ 0 ↔ Ready m := by
  obtain ⟨hloop, hspawn, hrest⟩ := Reachable_Inv h
  constructor
  · intro hp
    cases hk : m.worker with
    | absent => exact absurd (hrest (Or.inl hk)) hp
    | returned => exact absurd (hrest (Or.inr hk)) hp
    | spawned => exact absurd (hspawn hk).2.2 hp
    | looping => exact ⟨(hloop hk).2.1, hp⟩
  · exact fun hr => hr.2

/-- C9. `PausePlayback`, `ResumePlayback` and `StopPlayback`: when the guard
of the source fails (`isInitialized` clear or the engine null, so whenever
the engine is absent) the call returns `MP_E_NOT_INITIALIZED` and changes
nothing. When the guard passes, the call sends its one transport command and
returns exactly the status of that command; when the status is a success
`isPlaying` becomes true for resume and false for pause and stop, and when it
is a failure `isPlaying` is as before. In no case is any field other than
`isPlaying` changed, `isLoading`, `hasVideo` and `isInitialized` included.
In every reachable state the guard passes exactly when the engine is
present. -/
theorem transport_commands (m : Machine) (hr : HRESULT) :
    (¬ Ready m →
      PausePlayback m hr = (MP_E_NOT_INITIALIZED, m) ∧
      ResumePlayback m hr = (MP_E_NOT_INITIALIZED, m) ∧
      StopPlayback m hr = (MP_E_NOT_INITIALIZED, m)) ∧
    (Ready m →
      (PausePlayback m hr).1 = hr ∧ (ResumePlayback m hr).1 = hr ∧
      (StopPlayback m hr).1 = hr ∧
      (PausePlayback m hr).2.calls = m.calls ++ [.Pause m.g_state.player] ∧
      (ResumePlayback m hr).2.calls = m.calls ++ [.Play m.g_state.player] ∧
      (StopPlayback m hr).2.calls = m.calls ++ [.Stop m.g_state.player] ∧
      (SUCCEEDED hr = true →
        (PausePlayback m hr).2.g_state.isPlaying = false ∧
        (ResumePlayback m hr).2.g_state.isPlaying = true ∧
        (StopPlayback m hr).2.g_state.isPlaying = false) ∧
      (FAILED hr = true →
        (PausePlayback m hr).2.g_state.isPlaying = m.g_state.isPlaying ∧
        (ResumePlayback m hr).2.g_state.isPlaying = m.g_state.isPlaying ∧
        (StopPlayback m hr).2.g_state.isPlaying = m.g_state.isPlaying)) ∧
    ((PausePlayback m hr).2.g_state =
        { m.g_state with isPlaying := (PausePlayback m hr).2.g_state.isPlaying } ∧
      (ResumePlayback m hr).2.g_state =
        { m.g_state with isPlaying := (ResumePlayback m hr).2.g_state.isPlaying } ∧
      (StopPlayback m hr).2.g_state =
        { m.g_state with isPlaying := (StopPlayback m hr).2.g_state.isPlaying }) ∧
    (m.g_state.player = 0 → ¬ Ready m) ∧
    (Reachable m → (m.g_state.player ≠ 0 ↔ Ready m)) := by
  refine ⟨?_, ?_, ?_, fun h0 hr => hr.2 h0, Reachable_player_iff_Ready⟩
  · intro h
    have hg := guard_of_not_Ready h
    simp [PausePlayback, ResumePlayback, StopPlayback, hg]
  · intro h
    have hg := guard_of_Ready h
    rcases SUCCEEDED_or_FAILED hr with ⟨hs, hf⟩ | ⟨hs, hf⟩ <;>
      simp [PausePlayback, ResumePlayback, StopPlayback, hg, hs, hf, Machine.call]
  · by_cases h : Ready m
    · have hg := guard_of_Ready h
      rcases SUCCEEDED_or_FAILED hr with ⟨hs, hf⟩ | ⟨hs, hf⟩ <;>
        simp [PausePlayback, ResumePlayback, StopPlayback, hg, hs, hf, Machine.call]
    · have hg := guard_of_not_Ready h
      simp [PausePlayback, ResumePlayback, StopPlayback, hg]

theorem transport_commands_witness :
    (PausePlayback Machine.init S_OK = (MP_E_NOT_INITIALIZED, Machine.init) ∧
      ResumePlayback Machine.init S_OK = (MP_E_NOT_INITIALIZED, Machine.init) ∧
      StopPlayback Machine.init S_OK = (MP_E_NOT_INITIALIZED, Machine.init)) ∧
    ((PausePlayback sampleLoading S_OK).2.g_state.isPlaying = false ∧
      (ResumePlayback sampleLoading S_OK).2.g_state.isPlaying = true ∧
      (StopPlayback sampleLoading S_OK).2.g_state.isPlaying = false) ∧
    ((PausePlayback sampleMachine E_FAIL).2.g_state.isPlaying
        = sampleMachine.g_state.isPlaying ∧
      (ResumePlayback sampleMachine E_FAIL).2.g_state.isPlaying
        = sampleMachine.g_state.isPlaying ∧
      (StopPlayback sampleMachine E_FAIL).2.g_state.isPlaying
        = sampleMachine.g_state.isPlaying) ∧
    (sampleLoading.g_state.player ≠ 0 ↔ Ready sampleLoading) :=
  ⟨(transport_commands Machine.init S_OK).1 (by decide),
   ((transport_commands sampleLoading S_OK).2.1 (by decide)).2.2.2.2.2.2.1 (by decide),
   ((transport_commands sampleMachine E_FAIL).2.1 (by decide)).2.2.2.2.2.2.2 (by decide),
   (transport_commands sampleLoading S_OK).2.2.2.2 sampleLoading_reachable⟩

/-! ## isInitialized and the engine handle -/

/-- A step that is not a lifecycle step leaves the thread variables, the
engine handle and `isInitialized` alone. -/
theorem step_frame {m m1 : Machine} {op : Op} (h : step m op = some m1)
    (hop : op.isLifecycle = false) : SameFrame m m1 := by
  cases op with
  | init hwnd callback t => simp [Op.isLifecycle] at hop
  | workerStart a => simp [Op.isLifecycle] at hop
  | workerLeave why => simp [Op.isLifecycle] at hop
  | cleanup j => simp [Op.isLifecycle] at hop
  | engineEvent ev a =>
    simp only [step] at h
    split_ifs at h
    exact OnMediaPlayerEvent_frame h
  | playFile arg hr => exact Option.some.inj h ▸ PlayFile_frame m arg hr
  | playURL arg hr => exact Option.some.inj h ▸ PlayURL_frame m arg hr
  | pause hr => exact Option.some.inj h ▸ PausePlayback_frame m hr
  | resume hr => exact Option.some.inj h ▸ ResumePlayback_frame m hr
  | stop hr => exact Option.some.inj h ▸ StopPlayback_frame m hr
  | updateVideo => exact Option.some.inj h ▸ UpdateVideo_frame m
  | setVolume level a hr => exact Option.some.inj h ▸ SetVolume_frame m level a hr
  | getVolume pLevel a hr => exact Option.some.inj h ▸ GetVolume_frame m pLevel a hr
  | setMute bMute a hr => exact Option.some.inj h ▸ SetMute_frame m bMute a hr
  | getMute pbMute a hr => exact Option.some.inj h ▸ GetMute_frame m pbMute a hr
  | getDuration pDuration hr => exact Option.some.inj h ▸ GetDuration_frame m pDuration hr
  | getCurrentPosition pPosition hr =>
    exact Option.some.inj h ▸ GetCurrentPosition_frame m pPosition hr
  | setPosition position hr => exact Option.some.inj h ▸ SetPosition_frame m position hr

theorem InitializeMediaPlayer_state (m : Machine) (hwnd callback : Nat) (t : ThreadAnswer) :
    (InitializeMediaPlayer m hwnd callback t).2.g_state = m.g_state ∧
    ((InitializeMediaPlayer m hwnd callback t).2.worker = m.worker ∨
      (InitializeMediaPlayer m hwnd callback t).2.worker = .spawned) := by
  unfold InitializeMediaPlayer
  split_ifs <;> simp [Machine.call]

/-- Without a worker thread the player is not initialised: every step keeps
this, given the invariant. -/
theorem step_absent {m m1 : Machine} {op : Op} (hi : Inv m)
    (ha : m.worker = .absent → m.g_state.isInitialized = false)
    (h : step m op = some m1) : m1.worker = .absent → m1.g_state.isInitialized = false := by
  by_cases hop : op.isLifecycle = false
  · obtain ⟨hw, -, -, -, -, hini⟩ := step_frame h hop
    rw [hw, hini]
    exact ha
  · cases op with
    | init hwnd callback t =>
      simp only [step] at h
      split_ifs at h
      obtain ⟨hs, hw⟩ := InitializeMediaPlayer_state m hwnd callback t
      rw [← Option.some.inj h, hs]
      intro hk
      rcases hw with hw | hw
      · exact ha (hw ▸ hk)
      · rw [hw] at hk
        exact absurd hk (by decide)
    | workerStart a =>
      simp only [step] at h
      split_ifs at h
      rw [← Option.some.inj h]
      intro hk
      obtain ⟨-, -, hd⟩ := MediaThreadProc_start_spec m a
      rcases hd with ⟨hl, -, -⟩ | ⟨hr, -⟩
      · rw [hl] at hk
        exact absurd hk (by decide)
      · rw [hr] at hk
        exact absurd hk (by decide)
    | workerLeave why =>
      simp only [step] at h
      split_ifs at h
      rw [← Option.some.inj h]
      intro hk
      rw [(MediaThreadProc_leave_spec m why).2.1] at hk
      exact absurd hk (by decide)
    | cleanup j =>
      intro _
      rw [(CleanupMediaPlayer_spec hi h).1]
      rfl
    | engineEvent ev a => simp [Op.isLifecycle] at hop
    | playFile arg hr => simp [Op.isLifecycle] at hop
    | playURL arg hr => simp [Op.isLifecycle] at hop
    | pause hr => simp [Op.isLifecycle] at hop
    | resume hr => simp [Op.isLifecycle] at hop
    | stop hr => simp [Op.isLifecycle] at hop
    | updateVideo => simp [Op.isLifecycle] at hop
    | setVolume level a hr => simp [Op.isLifecycle] at hop
    | getVolume pLevel a hr => simp [Op.isLifecycle] at hop
    | setMute bMute a hr => simp [Op.isLifecycle] at hop
    | getMute pbMute a hr => simp [Op.isLifecycle] at hop
    | getDuration pDuration hr => simp [Op.isLifecycle] at hop
    | getCurrentPosition pPosition hr => simp [Op.isLifecycle] at hop
    | setPosition position hr => simp [Op.isLifecycle] at hop

theorem run_absent {m m1 : Machine} {ops : List Op} (hi : Inv m)
    (ha : m.worker = .absent → m.g_state.isInitialized = false)
    (h : run m ops = some m1) : m1.worker = .absent → m1.g_state.isInitialized = false := by
  induction ops generalizing m with
  | nil =>
    rw [← Option.some.inj h]
    exact ha
  | cons op rest ih =>
    simp only [run] at h
    cases hs : step m op with
    | none => simp [hs] at h
    | some m2 =>
      rw [hs] at h
      exact ih (step_Inv hi hs) (step_absent hi ha hs) h

/-- C13, as stated, fails: after the engine was constructed and the wait of
the message loop failed, the worker has released the engine and set the
handle to null, and `isInitialized` is still true. -/
theorem initialized_without_engine :
    run Machine.init sampleWaitFailedRun = some sampleTornDown ∧
    sampleTornDown.g_state.isInitialized = true ∧ sampleTornDown.g_state.player = 0 ∧
    ¬ (sampleTornDown.g_state.isInitialized = true ↔ sampleTornDown.g_state.player ≠ 0) := by
  decide

/-- C13, amended. In every reachable state a non-null engine handle comes
with `isInitialized` true, and as long as the worker thread has not returned
`isInitialized` is true exactly when the engine handle is non-null. Once the
worker has left its message loop, on a quit signal or on a failed wait, it has
torn the engine down: the handle is null, and `isInitialized` keeps the value
it had (true after a successful construction) until `CleanupMediaPlayer`
clears it. -/
theorem initialized_and_engine (m : Machine) (hm : Reachable m) :
    (m.g_state.player ≠ 0 → m.g_state.isInitialized = true) ∧
    (m.worker ≠ .returned → (m.g_state.isInitialized = true ↔ m.g_state.player ≠ 0)) ∧
    (m.worker = .returned → m.g_state.player = 0) ∧
    (m.worker = .looping → ∀ why : LoopExit,
      (MediaThreadProc_leave m why).g_state.isInitialized = true ∧
      (MediaThreadProc_leave m why).g_state.player = 0 ∧
      (MediaThreadProc_leave m why).worker = .returned) ∧
    (∀ (j : JoinAnswers) (m1 : Machine), CleanupMediaPlayer m j = some m1 →
      m1.g_state.isInitialized = false ∧ m1.g_state.player = 0) := by
  have hi := Reachable_Inv hm
  obtain ⟨ops, hrun⟩ := hm
  have ha := run_absent Inv_init (fun _ => rfl) hrun
  obtain ⟨hloop, hspawn, hrest⟩ := hi
  refine ⟨?_, ?_, fun hk => hrest (Or.inr hk), ?_, ?_⟩
  · intro hp
    cases hk : m.worker with
    | absent => exact absurd (hrest (Or.inl hk)) hp
    | returned => exact absurd (hrest (Or.inr hk)) hp
    | spawned => exact absurd (hspawn hk).2.2 hp
    | looping => exact (hloop hk).2.1
  · intro hnr
    cases hk : m.worker with
    | absent =>
      have h1 := ha hk
      have h2 := hrest (Or.inl hk)
      simp [h1, h2]
    | returned => exact absurd hk hnr
    | spawned =>
      have h1 := (hspawn hk).2.1
      have h2 := (hspawn hk).2.2
      simp [h1, h2]
    | looping =>
      have h1 := (hloop hk).2.1
      have h2 := (hloop hk).2.2
      simp [h1, h2]
  · intro hk why
    obtain ⟨hs, hw, -, -, -⟩ := MediaThreadProc_leave_spec m why
    rw [hs, hw]
    exact ⟨(hloop hk).2.1, rfl, rfl⟩
  · intro j m1 h1
    rw [(CleanupMediaPlayer_spec ⟨hloop, hspawn, hrest⟩ h1).1]
    exact ⟨rfl, rfl⟩

theorem initialized_and_engine_witness :
    (sampleMachine.g_state.isInitialized = true ↔ sampleMachine.g_state.player ≠ 0) ∧
    ((MediaThreadProc_leave sampleMachine .quit).g_state.isInitialized = true ∧
      (MediaThreadProc_leave sampleMachine .quit).g_state.player = 0 ∧
      (MediaThreadProc_leave sampleMachine .quit).worker = .returned) ∧
    (sampleCleaned.g_state.isInitialized = false ∧ sampleCleaned.g_state.player = 0) ∧
    sampleTornDown.g_state.player = 0 :=
  ⟨(initialized_and_engine sampleMachine ⟨sampleRun, by decide⟩).2.1 (by decide),
   (initialized_and_engine sampleMachine ⟨sampleRun, by decide⟩).2.2.2.1 (by decide) .quit,
   (initialized_and_engine sampleMachine ⟨sampleRun, by decide⟩).2.2.2.2
     sampleJoin sampleCleaned (by decide),
   (initialized_and_engine sampleTornDown ⟨sampleWaitFailedRun, by decide⟩).2.2.1
     (by decide)⟩

/-! ## The audio session is acquired once -/

/-- When the volume handle is null before `InitializeAudioControl` and
non-null after it, the whole device chain was resolved, once, every call of
it succeeding, and the two handles are the ones the chain returned. -/
theorem InitializeAudioControl_resolved {m : Machine} {a : AudioAnswers} (hr : Ready m)
    (h0 : m.g_state.audioVolume = 0)
    (h1 : (InitializeAudioControl m a).2.g_state.audioVolume ≠ 0) :
    SUCCEEDED a.hrVolume = true ∧ a.pVolume ≠ 0 ∧
    InitializeAudioControl m a = (a.hrVolume,
      { m with
        g_state := { m.g_state with
          audioSession := a.pSession, audioVolume := a.pVolume },
        calls := m.calls ++ deviceChain }) := by
  have hg := guard_of_Ready hr
  unfold InitializeAudioControl at h1 ⊢
  simp only [hg, Bool.false_eq_true, if_false, h0, ne_eq, not_true_eq_false] at h1 ⊢
  by_cases f1 : FAILED a.hrEnumerator = true
  · simp [f1, Machine.call, h0] at h1
  · by_cases f2 : FAILED a.hrEndpoint = true
    · simp [f1, f2, Machine.call, h0] at h1
    · by_cases f3 : FAILED a.hrActivate = true
      · simp [f1, f2, f3, Machine.call, h0] at h1
      · by_cases f4 : FAILED a.hrSession = true
        · simp [f1, f2, f3, f4, Machine.call, h0] at h1
        · have s4 : SUCCEEDED a.hrSession = true := by
            rcases SUCCEEDED_or_FAILED a.hrSession with ⟨hs, -⟩ | ⟨-, hf⟩
            · exact hs
            · exact absurd hf f4
          simp only [f1, f2, f3, f4, Bool.false_eq_true, if_false, Machine.call, s4,
            if_true] at h1 ⊢
          by_cases s5 : SUCCEEDED a.hrVolume = true
          · simp only [s5, if_true] at h1 ⊢
            refine ⟨trivial, h1, ?_⟩
            simp [deviceChain]
          · simp [s5] at h1

theorem SetVolume_in_range_state (m : Machine) (level : Float32) (a : AudioAnswers)
    (hr : HRESULT) (hlo : Float32.lt level Float32.zero = false)
    (hhi : Float32.lt Float32.one level = false) :
    (SetVolume m level a hr).2.g_state = (InitializeAudioControl m a).2.g_state := by
  unfold SetVolume
  simp only [hlo, hhi, Bool.or_self, Bool.false_eq_true, if_false]
  generalize InitializeAudioControl m a = r
  obtain ⟨hr0, m0⟩ := r
  simp only
  split_ifs <;> rfl

/-- C12. In every initialised state whose volume handle is already resolved,
`InitializeAudioControl` returns `S_OK` and the machine is exactly as before:
the device chain is not resolved again and the session and volume handles are
unchanged. Consequently, for two `SetVolume` calls in a row with levels that
pass the range test (every level of the interval from 0.0 to 1.0 does), when
the first call resolved the session (the volume handle was null before it and
is non-null after it): the first call performs one resolution of the device
chain and the second none, the two levels are applied to the same volume
control, the handles are not touched by the second call, and the second call
returns exactly the status of `SetMasterVolume`, whatever the device chain
would answer then. -/
theorem audio_session_acquired_once :
    (∀ (m : Machine) (a : AudioAnswers), Ready m → m.g_state.audioVolume ≠ 0 →
      InitializeAudioControl m a = (S_OK, m)) ∧
    (∀ (m : Machine) (l1 l2 : Float32) (a1 a2 : AudioAnswers) (hr1 hr2 : HRESULT),
      Ready m → m.g_state.audioVolume = 0 →
      Float32.lt l1 Float32.zero = false → Float32.lt Float32.one l1 = false →
      Float32.lt l2 Float32.zero = false → Float32.lt Float32.one l2 = false →
      (SetVolume m l1 a1 hr1).2.g_state.audioVolume ≠ 0 →
      (SetVolume_twice m l1 l2 a1 a2 hr1 hr2).1 = hr2 ∧
      (SUCCEEDED hr2 = true → SUCCEEDED (SetVolume_twice m l1 l2 a1 a2 hr1 hr2).1 = true) ∧
      resolutions (SetVolume m l1 a1 hr1).2.calls = resolutions m.calls + 1 ∧
      resolutions (SetVolume_twice m l1 l2 a1 a2 hr1 hr2).2.calls = resolutions m.calls + 1 ∧
      (SetVolume_twice m l1 l2 a1 a2 hr1 hr2).2.calls = m.calls ++ deviceChain ++
        [.SetMasterVolume a1.pVolume l1, .SetMasterVolume a1.pVolume l2] ∧
      (SetVolume_twice m l1 l2 a1 a2 hr1 hr2).2.g_state = (SetVolume m l1 a1 hr1).2.g_state ∧
      (SetVolume_twice m l1 l2 a1 a2 hr1 hr2).2.g_state.audioSession = a1.pSession ∧
      (SetVolume_twice m l1 l2 a1 a2 hr1 hr2).2.g_state.audioVolume = a1.pVolume) := by
  constructor
  · intro m a hr hv
    simp [InitializeAudioControl, guard_of_Ready hr, hv]
  · intro m l1 l2 a1 a2 hr1 hr2 hr h0 lo1 hi1 lo2 hi2 hafter
    rw [SetVolume_in_range_state m l1 a1 hr1 lo1 hi1] at hafter
    obtain ⟨hs, hp, heq⟩ := InitializeAudioControl_resolved hr h0 hafter
    have hf := FAILED_of_SUCCEEDED hs
    have hfirst : SetVolume m l1 a1 hr1 = (hr1,
        { m with
          g_state := { m.g_state with
            audioSession := a1.pSession, audioVolume := a1.pVolume },
          calls := m.calls ++ deviceChain ++ [.SetMasterVolume a1.pVolume l1] }) := by
      simp [SetVolume, lo1, hi1, heq, hf, hp, Machine.call]
    have hg := guard_of_Ready hr
    have hsecond : SetVolume_twice m l1 l2 a1 a2 hr1 hr2 = (hr2,
        { m with
          g_state := { m.g_state with
            audioSession := a1.pSession, audioVolume := a1.pVolume },
          calls := m.calls ++ deviceChain ++
            [.SetMasterVolume a1.pVolume l1, .SetMasterVolume a1.pVolume l2] }) := by
      have hok : FAILED S_OK = false := by decide
      unfold SetVolume_twice
      rw [hfirst]
      simp [SetVolume, lo2, hi2, InitializeAudioControl, hg, hp, Machine.call, hok]
    rw [hsecond, hfirst]
    refine ⟨rfl, fun h => h, ?_, ?_, rfl, rfl, rfl, rfl⟩ <;>
      simp [resolutions, deviceChain, List.count_append, List.count_cons]

theorem audio_session_acquired_once_witness :
    InitializeAudioControl sampleWithAudio sampleUnplugged = (S_OK, sampleWithAudio) ∧
    (SetVolume_twice sampleMachine Float32.half Float32.one sampleAudio sampleUnplugged
      S_OK S_OK).1 = S_OK ∧
    SUCCEEDED (SetVolume_twice sampleMachine Float32.half Float32.one sampleAudio
      sampleUnplugged S_OK S_OK).1 = true ∧
    resolutions (SetVolume_twice sampleMachine Float32.half Float32.one sampleAudio
      sampleUnplugged S_OK S_OK).2.calls = resolutions sampleMachine.calls + 1 ∧
    (SetVolume_twice sampleMachine Float32.half Float32.one sampleAudio sampleUnplugged
      S_OK S_OK).2.calls = sampleMachine.calls ++ deviceChain ++
        [.SetMasterVolume 88 Float32.half, .SetMasterVolume 88 Float32.one] := by
  have h := audio_session_acquired_once.2 sampleMachine Float32.half Float32.one sampleAudio
    sampleUnplugged S_OK S_OK (by decide) (by decide) (by decide) (by decide) (by decide)
    (by decide) (by decide)
  exact ⟨audio_session_acquired_once.1 sampleWithAudio sampleUnplugged (by decide) (by decide),
    h.1, h.2.1 (by decide), h.2.2.2.1, h.2.2.2.2.1⟩

/-! ## isPlaying and isLoading -/

/-- The audio functions write only the two audio handles of the record. -/
theorem InitializeAudioControl_flags (m : Machine) (a : AudioAnswers) :
    (InitializeAudioControl m a).2.g_state.isPlaying = m.g_state.isPlaying ∧
    (InitializeAudioControl m a).2.g_state.isLoading = m.g_state.isLoading := by
  unfold InitializeAudioControl
  split_ifs <;> simp [Machine.call]

theorem event_Exclusive {m m1 : Machine} {ev : Option MFP_EVENT_HEADER} {a : EventAnswers}
    (h : OnMediaPlayerEvent m ev a = some m1) (he : Exclusive m)
    (hq : (Op.engineEvent ev a).raisesPlaying = false ∨ m.g_state.isLoading = false) :
    Exclusive m1 := by
  cases ev with
  | none =>
    rw [← Option.some.inj h]
    exact he
  | some e =>
    obtain ⟨ty, hr, item⟩ := e
    rcases SUCCEEDED_or_FAILED hr with ⟨hs, hf⟩ | ⟨hs, hf⟩ <;>
    cases ty <;> simp only [OnMediaPlayerEvent, hf] at h <;> (try split_ifs at h) <;>
      (simp only [Option.some.injEq] at h; subst h
       simp_all [Exclusive, Machine.notify, Machine.call, Op.raisesPlaying])

theorem event_LoadPending {m m1 : Machine} {ev : Option MFP_EVENT_HEADER} {a : EventAnswers}
    (h : OnMediaPlayerEvent m ev a = some m1) (hl : LoadPending m)
    (hk : (Op.engineEvent ev a).keepsLoad = true) : LoadPending m1 := by
  cases ev with
  | none =>
    rw [← Option.some.inj h]
    exact hl
  | some e =>
    obtain ⟨ty, hr, item⟩ := e
    rcases SUCCEEDED_or_FAILED hr with ⟨hs, hf⟩ | ⟨hs, hf⟩ <;>
    cases ty <;> simp only [OnMediaPlayerEvent, hf] at h <;> (try split_ifs at h) <;>
      (simp only [Option.some.injEq] at h; subst h
       simp_all [LoadPending, Machine.notify, Machine.call, Op.keepsLoad])

theorem SetVolume_flags (m : Machine) (level : Float32) (a : AudioAnswers) (hr : HRESULT) :
    (SetVolume m level a hr).2.g_state.isPlaying = m.g_state.isPlaying ∧
    (SetVolume m level a hr).2.g_state.isLoading = m.g_state.isLoading := by
  have h := InitializeAudioControl_flags m a
  unfold SetVolume
  generalize InitializeAudioControl m a = r at h ⊢
  obtain ⟨hr0, m0⟩ := r
  simp only
  split_ifs <;> first
    | exact ⟨rfl, rfl⟩
    | exact h

theorem GetVolume_flags (m : Machine) (pLevel : Nat) (a : AudioAnswers) (hr : HRESULT) :
    (GetVolume m pLevel a hr).2.g_state.isPlaying = m.g_state.isPlaying ∧
    (GetVolume m pLevel a hr).2.g_state.isLoading = m.g_state.isLoading := by
  have h := InitializeAudioControl_flags m a
  unfold GetVolume
  generalize InitializeAudioControl m a = r at h ⊢
  obtain ⟨hr0, m0⟩ := r
  simp only
  split_ifs <;> first
    | exact ⟨rfl, rfl⟩
    | exact h

theorem SetMute_flags (m : Machine) (bMute : Bool) (a : AudioAnswers) (hr : HRESULT) :
    (SetMute m bMute a hr).2.g_state.isPlaying = m.g_state.isPlaying ∧
    (SetMute m bMute a hr).2.g_state.isLoading = m.g_state.isLoading := by
  have h := InitializeAudioControl_flags m a
  unfold SetMute
  generalize InitializeAudioControl m a = r at h ⊢
  obtain ⟨hr0, m0⟩ := r
  simp only
  split_ifs <;> exact h

theorem GetMute_flags (m : Machine) (pbMute : Nat) (a : AudioAnswers) (hr : HRESULT) :
    (GetMute m pbMute a hr).2.g_state.isPlaying = m.g_state.isPlaying ∧
    (GetMute m pbMute a hr).2.g_state.isLoading = m.g_state.isLoading := by
  have h := InitializeAudioControl_flags m a
  unfold GetMute
  generalize InitializeAudioControl m a = r at h ⊢
  obtain ⟨hr0, m0⟩ := r
  simp only
  split_ifs <;> first
    | exact ⟨rfl, rfl⟩
    | exact h

/-- A step that is not among the flag-writing ones leaves `isPlaying` and
`isLoading` as they were. -/
theorem step_flags {m m1 : Machine} {op : Op} (h : step m op = some m1)
    (hop : op.touchesFlags = false) :
    m1.g_state.isPlaying = m.g_state.isPlaying ∧
    m1.g_state.isLoading = m.g_state.isLoading := by
  cases op with
  | init hwnd callback t =>
    simp only [step] at h
    split_ifs at h
    rw [← Option.some.inj h, (InitializeMediaPlayer_state m hwnd callback t).1]
    exact ⟨rfl, rfl⟩
  | workerStart a =>
    simp only [step] at h
    split_ifs at h
    rw [← Option.some.inj h]
    obtain ⟨-, -, hd⟩ := MediaThreadProc_start_spec m a
    rcases hd with ⟨-, -, hs⟩ | ⟨-, hs | hs⟩ <;> rw [hs] <;> exact ⟨rfl, rfl⟩
  | workerLeave why =>
    simp only [step] at h
    split_ifs at h
    rw [← Option.some.inj h, (MediaThreadProc_leave_spec m why).1]
    exact ⟨rfl, rfl⟩
  | updateVideo =>
    rw [← Option.some.inj h]
    unfold UpdateVideo
    split_ifs <;> exact ⟨rfl, rfl⟩
  | setVolume level a hr => exact Option.some.inj h ▸ SetVolume_flags m level a hr
  | getVolume pLevel a hr => exact Option.some.inj h ▸ GetVolume_flags m pLevel a hr
  | setMute bMute a hr => exact Option.some.inj h ▸ SetMute_flags m bMute a hr
  | getMute pbMute a hr => exact Option.some.inj h ▸ GetMute_flags m pbMute a hr
  | getDuration pDuration hr =>
    rw [← Option.some.inj h]
    unfold GetDuration
    split_ifs <;> exact ⟨rfl, rfl⟩
  | getCurrentPosition pPosition hr =>
    rw [← Option.some.inj h]
    unfold GetCurrentPosition
    split_ifs <;> exact ⟨rfl, rfl⟩
  | setPosition position hr =>
    rw [← Option.some.inj h]
    unfold SetPosition
    split_ifs <;> exact ⟨rfl, rfl⟩
  | engineEvent ev a => simp [Op.touchesFlags] at hop
  | playFile arg hr => simp [Op.touchesFlags] at hop
  | playURL arg hr => simp [Op.touchesFlags] at hop
  | pause hr => simp [Op.touchesFlags] at hop
  | resume hr => simp [Op.touchesFlags] at hop
  | stop hr => simp [Op.touchesFlags] at hop
  | cleanup j => simp [Op.touchesFlags] at hop

/-- Every step keeps the two flags exclusive, except a step that raises
`isPlaying` while a load is pending. -/
theorem step_Exclusive {m m1 : Machine} {op : Op} (h : step m op = some m1)
    (he : Exclusive m) (hq : op.raisesPlaying = false ∨ m.g_state.isLoading = false) :
    Exclusive m1 := by
  by_cases hop : op.touchesFlags = false
  · obtain ⟨hp, hl⟩ := step_flags h hop
    unfold Exclusive
    rw [hp, hl]
    exact he
  · cases op with
    | engineEvent ev a =>
      simp only [step] at h
      split_ifs at h
      exact event_Exclusive h he hq
    | playFile arg hr =>
      rw [← Option.some.inj h]
      unfold PlayFile
      cases arg <;> simp only <;> split_ifs <;> simp_all [Exclusive, Machine.call]
    | playURL arg hr =>
      rw [← Option.some.inj h]
      unfold PlayURL
      cases arg <;> simp only <;> (try split_ifs) <;> simp_all [Exclusive, Machine.call]
    | pause hr =>
      rw [← Option.some.inj h]
      unfold PausePlayback
      split_ifs <;> simp_all [Exclusive, Machine.call]
    | resume hr =>
      rw [← Option.some.inj h]
      unfold ResumePlayback
      split_ifs <;> simp_all [Exclusive, Machine.call, Op.raisesPlaying]
    | stop hr =>
      rw [← Option.some.inj h]
      unfold StopPlayback
      split_ifs <;> simp_all [Exclusive, Machine.call]
    | cleanup j =>
      obtain ⟨m2, rfl⟩ := CleanupMediaPlayer_some h
      unfold Exclusive
      rw [(CleanupMediaPlayer_clear_spec m2).1]
      simp
    | init hwnd callback t => simp [Op.touchesFlags] at hop
    | workerStart a => simp [Op.touchesFlags] at hop
    | workerLeave why => simp [Op.touchesFlags] at hop
    | updateVideo => simp [Op.touchesFlags] at hop
    | setVolume level a hr => simp [Op.touchesFlags] at hop
    | getVolume pLevel a hr => simp [Op.touchesFlags] at hop
    | setMute bMute a hr => simp [Op.touchesFlags] at hop
    | getMute pbMute a hr => simp [Op.touchesFlags] at hop
    | getDuration pDuration hr => simp [Op.touchesFlags] at hop
    | getCurrentPosition pPosition hr => simp [Op.touchesFlags] at hop
    | setPosition position hr => simp [Op.touchesFlags] at hop

/-- A pending load stays pending under every step that keeps loads. -/
theorem step_LoadPending {m m1 : Machine} {op : Op} (h : step m op = some m1)
    (hl : LoadPending m) (hk : op.keepsLoad = true) : LoadPending m1 := by
  by_cases hop : op.touchesFlags = false
  · obtain ⟨hp, hld⟩ := step_flags h hop
    unfold LoadPending
    rw [hp, hld]
    exact hl
  · cases op with
    | engineEvent ev a =>
      simp only [step] at h
      split_ifs at h
      exact event_LoadPending h hl hk
    | playFile arg hr =>
      rw [← Option.some.inj h]
      unfold PlayFile
      rcases SUCCEEDED_or_FAILED hr with ⟨hs, hf⟩ | ⟨hs, hf⟩ <;>
      cases arg <;> simp only <;> split_ifs <;>
        simp_all [LoadPending, Machine.call, Op.keepsLoad]
    | playURL arg hr =>
      rw [← Option.some.inj h]
      unfold PlayURL
      rcases SUCCEEDED_or_FAILED hr with ⟨hs, hf⟩ | ⟨hs, hf⟩ <;>
      cases arg <;> simp only <;> (try split_ifs) <;>
        simp_all [LoadPending, Machine.call, Op.keepsLoad]
    | pause hr =>
      rw [← Option.some.inj h]
      unfold PausePlayback
      split_ifs <;> simp_all [LoadPending, Machine.call]
    | resume hr =>
      rw [← Option.some.inj h]
      unfold ResumePlayback
      split_ifs <;> simp_all [LoadPending, Machine.call, Op.keepsLoad]
    | stop hr =>
      rw [← Option.some.inj h]
      unfold StopPlayback
      split_ifs <;> simp_all [LoadPending, Machine.call]
    | cleanup j => simp [Op.keepsLoad] at hk
    | init hwnd callback t => simp [Op.touchesFlags] at hop
    | workerStart a => simp [Op.touchesFlags] at hop
    | workerLeave why => simp [Op.touchesFlags] at hop
    | updateVideo => simp [Op.touchesFlags] at hop
    | setVolume level a hr => simp [Op.touchesFlags] at hop
    | getVolume pLevel a hr => simp [Op.touchesFlags] at hop
    | setMute bMute a hr => simp [Op.touchesFlags] at hop
    | getMute pbMute a hr => simp [Op.touchesFlags] at hop
    | getDuration pDuration hr => simp [Op.touchesFlags] at hop
    | getCurrentPosition pPosition hr => simp [Op.touchesFlags] at hop
    | setPosition position hr => simp [Op.touchesFlags] at hop

theorem run_Exclusive {m m1 : Machine} {ops : List Op} (h : run m ops = some m1)
    (he : Exclusive m) (hq : ∀ op ∈ ops, op.raisesPlaying = false) : Exclusive m1 := by
  induction ops generalizing m with
  | nil =>
    rw [← Option.some.inj h]
    exact he
  | cons op rest ih =>
    simp only [run] at h
    cases hs : step m op with
    | none => simp [hs] at h
    | some m2 =>
      rw [hs] at h
      exact ih h (step_Exclusive hs he (Or.inl (hq op (List.mem_cons_self op rest))))
        (fun o ho => hq o (List.mem_cons_of_mem op ho))

theorem run_LoadPending {m m1 : Machine} {ops : List Op} (h : run m ops = some m1)
    (hl : LoadPending m) (hk : ∀ op ∈ ops, op.keepsLoad = true) : LoadPending m1 := by
  induction ops generalizing m with
  | nil =>
    rw [← Option.some.inj h]
    exact hl
  | cons op rest ih =>
    simp only [run] at h
    cases hs : step m op with
    | none => simp [hs] at h
    | some m2 =>
      rw [hs] at h
      exact ih h (step_LoadPending hs hl (hk op (List.mem_cons_self op rest)))
        (fun o ho => hk o (List.mem_cons_of_mem op ho))

/-- C11, as stated, fails: after an accepted `PlayFile` and before any
item-set event, a `ResumePlayback` whose transport command succeeds sets
`isPlaying` while `isLoading` is still set; both flags are true in the
reached state. -/
theorem playing_while_loading :
    run Machine.init sampleResumeRun = some sampleResumed ∧
    sampleResumed.g_state.isPlaying = true ∧ sampleResumed.g_state.isLoading = true ∧
    ¬ Exclusive sampleResumed :=
  ⟨by decide, by decide, by decide, fun h => h ⟨by decide, by decide⟩⟩

/-- C11, amended. `isPlaying` and `isLoading` are not both true in any state
reached from process load by a run in which no `ResumePlayback` succeeds and
no successful play event of the engine arrives; more finely, every step keeps
the two flags exclusive unless it is such a step taken while `isLoading` is
set, and a `ResumePlayback` that succeeds during a pending load makes both
flags true. The acceptance of a play request by `PlayFile` or `PlayURL` sets
`isLoading` and clears `isPlaying`; the two flags stay so under every run of
steps other than a `ResumePlayback` that succeeds, a failed, play or item-set
event, a play request failing synchronously and `CleanupMediaPlayer`; the
item-set event, with a listener registered, clears `isLoading` and, with the
engine present, sets `isPlaying`. -/
theorem flags_exclusive_unless_resumed :
    (∀ (ops : List Op) (m : Machine), run Machine.init ops = some m →
      (∀ op ∈ ops, op.raisesPlaying = false) → Exclusive m) ∧
    (∀ (m m1 : Machine) (op : Op), step m op = some m1 → Exclusive m →
      (op.raisesPlaying = false ∨ m.g_state.isLoading = false) → Exclusive m1) ∧
    (∀ (m : Machine) (hr : HRESULT), Ready m → LoadPending m → SUCCEEDED hr = true →
      ¬ Exclusive (ResumePlayback m hr).2) ∧
    (∀ (m : Machine) (src : List Nat) (hr : HRESULT), Ready m → SUCCEEDED hr = true →
      LoadPending (PlayFile m (some src) hr).2 ∧ LoadPending (PlayURL m (some src) hr).2) ∧
    (∀ (m m1 : Machine) (ops : List Op), LoadPending m → run m ops = some m1 →
      (∀ op ∈ ops, op.keepsLoad = true) → LoadPending m1) ∧
    (∀ (m : Machine) (ev : MFP_EVENT_HEADER) (a : EventAnswers),
      m.g_state.userCallback ≠ 0 → ev.eEventType = .MEDIAITEM_SET →
      SUCCEEDED ev.hrEvent = true →
      ∃ m1, OnMediaPlayerEvent m (some ev) a = some m1 ∧ m1.g_state.isLoading = false ∧
        (m.g_state.player ≠ 0 → m1.g_state.isPlaying = true)) := by
  refine ⟨?_, ?_, ?_, ?_, ?_, ?_⟩
  · intro ops m hrun hq
    exact run_Exclusive hrun (fun h => absurd h.1 (by decide)) hq
  · intro m m1 op h he hq
    exact step_Exclusive h he hq
  · intro m hr hrdy hl hs he
    have hg := guard_of_Ready hrdy
    apply he
    simp [ResumePlayback, hg, hs, Machine.call, hl.1]
  · intro m src hr hrdy hs
    have hg := guard_of_Ready hrdy
    have hf := FAILED_of_SUCCEEDED hs
    simp [LoadPending, PlayFile, PlayURL, hg, hf, Machine.call]
  · intro m m1 ops hl hrun hk
    exact run_LoadPending hrun hl hk
  · intro m ev a hcb hty hs
    have hf := FAILED_of_SUCCEEDED hs
    by_cases hp : m.g_state.player = 0 <;>
      simp [OnMediaPlayerEvent, hcb, hty, hf, hp, Machine.notify, Machine.call]

theorem flags_exclusive_unless_resumed_witness :
    Exclusive sampleMachine ∧
    ¬ Exclusive (ResumePlayback sampleLoading S_OK).2 ∧
    (LoadPending (PlayFile sampleMachine (some [97]) S_OK).2 ∧
      LoadPending (PlayURL sampleMachine (some [97]) S_OK).2) ∧
    LoadPending { sampleLoading with calls := sampleLoading.calls ++ [.Pause 11] } ∧
    (∃ m1, OnMediaPlayerEvent sampleLoading (some ⟨.MEDIAITEM_SET, 0, 0⟩) sampleAnswers
        = some m1 ∧ m1.g_state.isLoading = false ∧
      (sampleLoading.g_state.player ≠ 0 → m1.g_state.isPlaying = true)) :=
  ⟨flags_exclusive_unless_resumed.1 sampleRun sampleMachine (by decide) (by decide),
   flags_exclusive_unless_resumed.2.2.1 sampleLoading S_OK (by decide)
     ⟨by decide, by decide⟩ (by decide),
   flags_exclusive_unless_resumed.2.2.2.1 sampleMachine [97] S_OK (by decide) (by decide),
   flags_exclusive_unless_resumed.2.2.2.2.1 sampleLoading
     { sampleLoading with calls := sampleLoading.calls ++ [.Pause 11] } [.pause E_FAIL]
     ⟨by decide, by decide⟩ (by decide) (by decide),
   flags_exclusive_unless_resumed.2.2.2.2.2 sampleLoading ⟨.MEDIAITEM_SET, 0, 0⟩ sampleAnswers
     (by decide) rfl (by decide)⟩

/-! ## Volume: the levels outside the interval -/

/-- The levels outside the closed interval from 0.0 to 1.0 are the levels
that compare below `0.0f` or above `1.0f`, and the NaNs. -/
theorem Float32.outside_iff (x : Float32) :
    x.inUnitInterval = false ↔
      (x.isNaN = true ∨ Float32.lt x Float32.zero = true ∨
        Float32.lt Float32.one x = true) := by
  have h0 : Float32.zero.isNaN = false := by decide
  have h1 : Float32.one.isNaN = false := by decide
  unfold Float32.inUnitInterval Float32.le Float32.lt
  rw [h0, h1]
  cases hn : x.isNaN
  · simp only [Bool.not_false, Bool.true_and, Bool.and_true, Bool.and_eq_false_imp,
      decide_eq_true_eq, decide_eq_false_iff_not, Bool.false_eq_true, false_or]
    constructor
    · intro h
      by_cases hk : Float32.zero.key ≤ x.key
      · exact Or.inr (Int.not_le.mp (h hk))
      · exact Or.inl (Int.not_le.mp hk)
    · intro h hk
      rcases h with h | h
      · exact absurd hk (Int.not_le.mpr h)
      · exact Int.not_le.mpr h
  · simp

/-- C10 at a NaN level. A NaN is a level outside the closed interval from 0.0
to 1.0, and both comparisons of the range test are false for it, so
`SetVolume` does not return `MP_E_INVALID_PARAMETER`. In the state at process
load it returns `MP_E_NOT_INITIALIZED`. In an initialised state it resolves
the audio session, stores the session and volume handles and passes the NaN
to `SetMasterVolume`, returning the status of that call; with the session
already resolved it passes the NaN to `SetMasterVolume` at once. -/
theorem nan_level_not_rejected :
    Float32.qNaN.isNaN = true ∧ Float32.qNaN.inUnitInterval = false ∧
    (SetVolume Machine.init Float32.qNaN sampleAudio S_OK).1 = MP_E_NOT_INITIALIZED ∧
    (SetVolume Machine.init Float32.qNaN sampleAudio S_OK).1 ≠ MP_E_INVALID_PARAMETER ∧
    run Machine.init sampleRun = some sampleMachine ∧
    (SetVolume sampleMachine Float32.qNaN sampleAudio S_OK).1 = S_OK ∧
    sampleMachine.g_state.audioVolume = 0 ∧
    (SetVolume sampleMachine Float32.qNaN sampleAudio S_OK).2.g_state.audioSession = 77 ∧
    (SetVolume sampleMachine Float32.qNaN sampleAudio S_OK).2.g_state.audioVolume = 88 ∧
    (SetVolume sampleMachine Float32.qNaN sampleAudio S_OK).2.calls =
      sampleMachine.calls ++ deviceChain ++ [.SetMasterVolume 88 Float32.qNaN] ∧
    (SetVolume sampleWithAudio Float32.qNaN sampleUnplugged E_INVALIDARG).1 = E_INVALIDARG ∧
    E_INVALIDARG ≠ MP_E_INVALID_PARAMETER ∧
    (SetVolume sampleWithAudio Float32.qNaN sampleUnplugged E_INVALIDARG).2.calls =
      sampleWithAudio.calls ++ [.SetMasterVolume 88 Float32.qNaN] := by
  decide

end MFPlayer
